import Mathlib

/-!
Verification development for the Javari universal data scraper
(`api/scrape.js`): a shallow embedding of its JavaScript value model,
the retrying fetcher, the per-domain transform layer, the batched
Supabase uploader and the orchestrating request handler, together with
theorems settling the specified behavioural claims.

Network effects (the `fetch` calls and the JSON payloads returned by the
third-party APIs) are modelled as explicit oracle parameters: a scraper
that in JavaScript performs `await fetch(url)` is embedded as a function
of an environment that maps the request position (page number, letter,
TTB id, ...) to the outcome the network would have produced.  Await
points and inter-request delays have no further semantic content in the
claims and are dropped, except where a claim speaks about the waiting
schedule, in which case the delays requested by the code are collected
in an explicit log.
-/

namespace Javari

/-- JavaScript runtime values, as far as `api/scrape.js` manipulates
them: `undefined`, `null`, booleans, numbers (modelled as rationals,
with `NaN` as a separate constructor), strings, arrays and plain
objects (field lists). -/
inductive JsValue where
  | undefined : JsValue
  | null : JsValue
  | bool (b : Bool) : JsValue
  | num (q : Rat) : JsValue
  | nan : JsValue
  | str (s : String) : JsValue
  | arr (elems : List JsValue) : JsValue
  | obj (fields : List (String × JsValue)) : JsValue

/-- A raw source record: an untyped field-name to value mapping. -/
abbrev RawRecord := List (String × JsValue)

/-- JavaScript truthiness: `undefined`, `null`, `false`, `0`, `NaN` and
the empty string are falsy; every other value is truthy. -/
def truthy : JsValue → Bool
  | .undefined => false
  | .null => false
  | .bool b => b
  | .num q => q != 0
  | .nan => false
  | .str s => s != ""
  | .arr _ => true
  | .obj _ => true

/-- Property access `v[k]` for the plain-object case; for every
non-object receiver used in the scraper the accessed properties are
absent, so the access yields `undefined`. -/
def getField (v : JsValue) (k : String) : JsValue :=
  match v with
  | .obj fields => (fields.lookup k).getD .undefined
  | _ => .undefined

/-- Optional-chained property access `v?.k`: short-circuits to
`undefined` on `null`/`undefined` receivers. -/
def getFieldOpt (v : JsValue) (k : String) : JsValue :=
  match v with
  | .undefined => .undefined
  | .null => .undefined
  | v => getField v k

/-- JavaScript `a || b`. -/
def jsOr (a b : JsValue) : JsValue :=
  if truthy a then a else b

/-- Rendering of a (rational) JavaScript number to a string; integers
print without a fractional part. -/
def jsNumToString (q : Rat) : String :=
  if q.den = 1 then toString q.num else toString q

mutual

/-- JavaScript `String(v)` / template-literal coercion. -/
def jsToString : JsValue → String
  | .undefined => "undefined"
  | .null => "null"
  | .bool b => if b then "true" else "false"
  | .num q => jsNumToString q
  | .nan => "NaN"
  | .str s => s
  | .arr xs => String.intercalate "," (jsToStringElems xs)
  | .obj _ => "[object Object]"

/-- Array elements under `Array.prototype.toString`/`join`:
`null` and `undefined` render as the empty string. -/
def jsToStringElems : List JsValue → List String
  | [] => []
  | .undefined :: rest => "" :: jsToStringElems rest
  | .null :: rest => "" :: jsToStringElems rest
  | v :: rest => jsToString v :: jsToStringElems rest

end

/-- JavaScript `array.join(sep)` over a list of values. -/
def jsJoinList (xs : List JsValue) (sep : String) : String :=
  String.intercalate sep (jsToStringElems xs)

/-- JSON string escaping for the quotation mark and the backslash (the
only escapes the scraped payloads can require in this model). -/
def jsonEscapeChar (c : Char) : String :=
  if c = '"' then "\\\"" else if c = '\\' then "\\\\" else String.singleton c

/-- Quoted JSON rendering of a string. -/
def jsonQuote (s : String) : String :=
  "\"" ++ String.join (s.toList.map jsonEscapeChar) ++ "\""

mutual

/-- JavaScript `JSON.stringify`, restricted to the value shapes the
scraper produces: `undefined` serializes to no value (returned as
`undefined`), `NaN` to `null`, objects drop `undefined`-valued fields. -/
def jsonStringify : JsValue → JsValue
  | .undefined => .undefined
  | .null => .str "null"
  | .bool b => .str (if b then "true" else "false")
  | .num q => .str (jsNumToString q)
  | .nan => .str "null"
  | .str s => .str (jsonQuote s)
  | .arr xs => .str ("[" ++ String.intercalate "," (jsonArrElems xs) ++ "]")
  | .obj fields => .str ("\x7b" ++ String.intercalate "," (jsonObjFields fields) ++ "\x7d")

/-- Array elements under `JSON.stringify`: `undefined` becomes `null`. -/
def jsonArrElems : List JsValue → List String
  | [] => []
  | v :: rest =>
    (match jsonStringify v with
     | .str s => s
     | _ => "null") :: jsonArrElems rest

/-- Object fields under `JSON.stringify`: `undefined`-valued fields are
dropped. -/
def jsonObjFields : List (String × JsValue) → List String
  | [] => []
  | (k, v) :: rest =>
    match jsonStringify v with
    | .str s => (jsonQuote k ++ ":" ++ s) :: jsonObjFields rest
    | _ => jsonObjFields rest

end

/-- Occurrence of a pattern as a contiguous run inside a character
list. -/
def listHasRun (pat : List Char) : List Char → Bool
  | [] => pat.isEmpty
  | c :: rest => pat.isPrefixOf (c :: rest) || listHasRun pat rest

/-- JavaScript `s.includes(sub)`: substring containment. -/
def jsIncludes (s sub : String) : Bool :=
  listHasRun sub.toList s.toList

/-- JavaScript `s.toLowerCase()`, character-wise. -/
def jsToLower (s : String) : String :=
  String.mk (s.toList.map Char.toLower)

/-- String truncation `s.substring(0, n)` on an actual string,
character-wise. -/
def substringTo (s : String) (n : Nat) : String :=
  String.mk (s.toList.take n)

/-- Method call `v.substring(0, n)`: a TypeError is raised unless the
receiver is a string. -/
def jsSubstringTo (v : JsValue) (n : Nat) : Except String JsValue :=
  match v with
  | .str s => .ok (.str (substringTo s n))
  | _ => .error "record.field.substring is not a function"

/-- Optional-chained `v?.substring(0, n)`: `null`/`undefined` receivers
short-circuit to `undefined`; any other non-string receiver raises. -/
def jsSubstringToOpt (v : JsValue) (n : Nat) : Except String JsValue :=
  match v with
  | .undefined => .ok .undefined
  | .null => .ok .undefined
  | v => jsSubstringTo v n

/-- Leading decimal-digit run of a character list. -/
def takeDigits (cs : List Char) : List Char × List Char :=
  match cs with
  | [] => ([], [])
  | c :: rest =>
    if c.isDigit then
      let (ds, tail) := takeDigits rest
      (c :: ds, tail)
    else ([], cs)

/-- Numeric value of a list of decimal digits. -/
def digitsToNat (ds : List Char) : Nat :=
  ds.foldl (fun acc c => acc * 10 + (c.toNat - 48)) 0

/-- Leading-whitespace stripping as the JS numeric parsers perform it. -/
def stripWs (cs : List Char) : List Char :=
  cs.dropWhile (fun c => c = ' ' || c = '\t' || c = '\n' || c = '\r')

/-- Optional leading sign; returns the sign factor and the rest. -/
def takeSign (cs : List Char) : Int × List Char :=
  match cs with
  | '-' :: rest => (-1, rest)
  | '+' :: rest => (1, rest)
  | _ => (1, cs)

/-- Exponent part of a JS float literal, as a multiplicative factor;
an exponent marker not followed by digits is ignored (factor 1). -/
def parseExpFactor (cs : List Char) : Rat :=
  let (esign, cs) := takeSign cs
  let (expDs, _) := takeDigits cs
  if expDs.isEmpty then 1
  else if esign = 1 then (10 : Rat) ^ digitsToNat expDs
  else 1 / ((10 : Rat) ^ digitsToNat expDs)

/-- JavaScript `parseFloat` on a string: optional sign, decimal digits
with an optional fractional part and exponent; `NaN` when no digit is
found. -/
def parseFloatString (s : String) : JsValue :=
  let cs := stripWs s.toList
  let (sign, cs) := takeSign cs
  let (intDs, cs) := takeDigits cs
  let (fracDs, cs) :=
    match cs with
    | '.' :: rest =>
      let (ds, tail) := takeDigits rest
      (ds, tail)
    | _ => ([], cs)
  if intDs.isEmpty && fracDs.isEmpty then .nan
  else
    let mantissa : Rat :=
      (digitsToNat intDs : Rat) + (digitsToNat fracDs : Rat) / ((10 : Rat) ^ fracDs.length)
    let expFactor : Rat :=
      match cs with
      | 'e' :: rest => parseExpFactor rest
      | 'E' :: rest => parseExpFactor rest
      | _ => 1
    .num (sign * mantissa * expFactor)

/-- JavaScript `parseFloat(v)`: the argument is coerced to a string
first. -/
def jsParseFloat (v : JsValue) : JsValue :=
  parseFloatString (jsToString v)

/-- JavaScript `parseInt(s)` (radix 10): optional sign and leading
decimal digits; `NaN` when no digit is found. -/
def jsParseInt (s : String) : JsValue :=
  let cs := stripWs s.toList
  let (sign, cs) := takeSign cs
  let (ds, _) := takeDigits cs
  if ds.isEmpty then .nan else .num (sign * (digitsToNat ds : Rat))

/-- String left-padding, `s.padStart(n, c)`. -/
def padStart (s : String) (n : Nat) (c : Char) : String :=
  if s.length < n then String.mk (List.replicate (n - s.length) c) ++ s else s

/-- Exponent tail for a full numeric literal: sign and digits that must
consume the whole remainder. -/
def parseExpTail (cs : List Char) : Option Rat :=
  let (esign, cs1) := takeSign cs
  let (expDs, cs2) := takeDigits cs1
  if expDs.isEmpty || !cs2.isEmpty then none
  else if esign = 1 then some ((10 : Rat) ^ digitsToNat expDs)
  else some (1 / ((10 : Rat) ^ digitsToNat expDs))

/-- Full-string numeric literal: optional sign, digits with optional
fractional part, optional exponent; nothing may remain.  Used by the
JavaScript `ToNumber` coercion on strings (which, unlike `parseFloat`,
rejects trailing garbage). -/
def parseNumListFull (cs : List Char) : Option Rat :=
  let (sign, cs1) := takeSign cs
  let (intDs, cs2) := takeDigits cs1
  let (fracDs, cs3) :=
    match cs2 with
    | '.' :: rest => takeDigits rest
    | _ => ([], cs2)
  if intDs.isEmpty && fracDs.isEmpty then none
  else
    let mantissa : Rat :=
      (digitsToNat intDs : Rat) + (digitsToNat fracDs : Rat) / ((10 : Rat) ^ fracDs.length)
    match cs3 with
    | [] => some (sign * mantissa)
    | 'e' :: rest =>
      (parseExpTail rest).map (fun f => sign * mantissa * f)
    | 'E' :: rest =>
      (parseExpTail rest).map (fun f => sign * mantissa * f)
    | _ => none

/-- Whitespace trimming on both ends. -/
def trimWs (cs : List Char) : List Char :=
  ((stripWs cs).reverse.dropWhile (fun c => c = ' ' || c = '\t' || c = '\n' || c = '\r')).reverse

/-- JavaScript `ToNumber` on a string: the trimmed empty string is `0`,
otherwise the whole string must be a numeric literal, else `NaN`. -/
def toNumberString (s : String) : JsValue :=
  let cs := trimWs s.toList
  if cs.isEmpty then .num 0
  else
    match parseNumListFull cs with
    | some q => .num q
    | none => .nan

/-- JavaScript `ToNumber` coercion, for the implicit numeric
comparisons (`<`, `>=`) and arithmetic in the scraper loops. -/
def jsToNumber (v : JsValue) : JsValue :=
  match v with
  | .undefined => .nan
  | .null => .num 0
  | .bool b => .num (if b then 1 else 0)
  | .num q => .num q
  | .nan => .nan
  | .str s => toNumberString s
  | .arr xs => toNumberString (jsToString (.arr xs))
  | .obj _ => .nan

/-- JavaScript `a < v` with a number on the left: `false` whenever the
coerced right side is `NaN`. -/
def jsNumLt (a : Nat) (v : JsValue) : Bool :=
  match jsToNumber v with
  | .num q => (a : Rat) < q
  | _ => false

/-- JavaScript `a >= v` with a number on the left: `false` whenever the
coerced right side is `NaN`. -/
def jsNumGe (a : Nat) (v : JsValue) : Bool :=
  match jsToNumber v with
  | .num q => q ≤ (a : Rat)
  | _ => false

/-- Truncation of a rational toward zero, as JavaScript `ToInteger`. -/
def ratTruncToInt (q : Rat) : Int :=
  if q < 0 then -((-q).floor) else q.floor

/-- JavaScript `l.slice(0, endV)`: the end index is coerced to an
integer (`NaN` to 0), clamped; a negative index counts from the end. -/
def jsSliceTo (l : List α) (endV : JsValue) : List α :=
  let n : Int := l.length
  let e : Int :=
    match jsToNumber endV with
    | .num q => ratTruncToInt q
    | _ => 0
  let e2 : Int := if e < 0 then max (n + e) 0 else min e n
  l.take e2.toNat

/-- Array/iterable view of a value for `for (const x of v)`: arrays
iterate their elements, strings their characters; anything else is not
iterable (a `TypeError` in JavaScript). -/
def jsIterate : JsValue → Option (List JsValue)
  | .arr xs => some xs
  | .str s => some (s.toList.map (fun c => .str (String.singleton c)))
  | _ => none

/-- Test `v.length === 0` as the pagination loops do. -/
def jsLengthIsZero (v : JsValue) : Bool :=
  match v with
  | .arr xs => xs.isEmpty
  | .str s => s.isEmpty
  | .obj fields =>
    match getField (.obj fields) "length" with
    | .num q => q = 0
    | _ => false
  | _ => false

/-- Truthiness of an optional process-environment string (absent or
empty means falsy, matching `process.env` lookups). -/
def optTruthy : Option String → Bool
  | none => false
  | some s => s != ""

/-!
Rate-limited fetcher (`fetchWithRetry`, `api/scrape.js` lines 37-52).

An attempt either resolves to an HTTP response or rejects with a
network-level error; the oracle `attempt` gives the outcome of the
`fetch` for each loop index.  The delays the code requests via
`delay(...)` are collected in a log so that the backoff schedule is
part of the observable result.
-/

/-- An HTTP response, of which the fetcher inspects only the status. -/
structure Response where
  status : Nat
deriving DecidableEq, Repr

/-- JavaScript `response.ok`: status in the 2xx range. -/
def Response.isOk (r : Response) : Bool :=
  200 ≤ r.status && r.status < 300

/-- Outcome of a single `fetch` call. -/
inductive FetchAttempt where
  | response (r : Response) : FetchAttempt
  | netError (msg : String) : FetchAttempt
deriving DecidableEq, Repr

/-- Result of `fetchWithRetry`: a returned response, a raised error, or
the `undefined` value produced by falling off the end of the loop. -/
inductive FetchResult where
  | returned (r : Response) : FetchResult
  | raised (msg : String) : FetchResult
  | undefinedReturn : FetchResult
deriving DecidableEq, Repr

/-- Loop of `fetchWithRetry`; `fuel` is the number of remaining
iterations (`retries - i`), which makes the `for` loop structural. -/
def fetchWithRetryGo (attempt : Nat → FetchAttempt) (retries : Nat) :
    Nat → Nat → List Nat → FetchResult × List Nat
  | 0, _, delays => (.undefinedReturn, delays)
  | fuel + 1, i, delays =>
    match attempt i with
    | .response r =>
      if r.isOk then (.returned r, delays)
      else if r.status = 429 then
        fetchWithRetryGo attempt retries fuel (i + 1) (delays ++ [5000 * (i + 1)])
      else if i = retries - 1 then (.raised ("HTTP " ++ toString r.status), delays)
      else fetchWithRetryGo attempt retries fuel (i + 1) (delays ++ [1000 * (i + 1)])
    | .netError msg =>
      if i = retries - 1 then (.raised msg, delays)
      else fetchWithRetryGo attempt retries fuel (i + 1) (delays ++ [1000 * (i + 1)])

/-- The retrying fetcher (`retries` defaults to 3 at every call site in
the scraper).  Returns the result together with the requested delay
log. -/
def fetchWithRetry (attempt : Nat → FetchAttempt) (retries : Nat) : FetchResult × List Nat :=
  fetchWithRetryGo attempt retries retries 0 []

/-!
Transform layer (`transformSpirit`, `mapCategory`, `transformCard`,
`transformBook`, `api/scrape.js` lines 676-732) and the Open Food Facts
tag mapper (`mapOFFCategory`, lines 331-345).
-/

/-- JavaScript `typeof v === 'number'` (`NaN` is a number). -/
def isNumberType : JsValue → Bool
  | .num _ => true
  | .nan => true
  | _ => false

/-- Category normalization ladder of the spirits transform
(`mapCategory`). -/
def mapCategory (cat : JsValue) : String :=
  if !truthy cat then "spirits"
  else
    let c := jsToLower (jsToString cat)
    if jsIncludes c "bourbon" || jsIncludes c "whiskey" || jsIncludes c "whisky" then "bourbon"
    else if jsIncludes c "vodka" then "vodka"
    else if jsIncludes c "rum" then "rum"
    else if jsIncludes c "tequila" || jsIncludes c "mezcal" then "tequila"
    else if jsIncludes c "gin" then "gin"
    else if jsIncludes c "brandy" || jsIncludes c "cognac" then "brandy"
    else if jsIncludes c "wine" then "wine"
    else if jsIncludes c "beer" || jsIncludes c "ale" || jsIncludes c "lager" || jsIncludes c "malt" then "beer"
    else if jsIncludes c "cocktail" then "cocktail"
    else if jsIncludes c "spirits" then "spirits"
    else "other"

/-- Category mapper for Open Food Facts tag arrays
(`mapOFFCategory`). -/
def mapOFFCategory (tags : JsValue) : String :=
  match tags with
  | .arr xs =>
    let tagStr := jsToLower (jsJoinList xs ",")
    if jsIncludes tagStr "whiskey" || jsIncludes tagStr "whisky" || jsIncludes tagStr "bourbon" then "bourbon"
    else if jsIncludes tagStr "vodka" then "vodka"
    else if jsIncludes tagStr "rum" then "rum"
    else if jsIncludes tagStr "tequila" || jsIncludes tagStr "mezcal" then "tequila"
    else if jsIncludes tagStr "gin" then "gin"
    else if jsIncludes tagStr "brandy" || jsIncludes tagStr "cognac" then "brandy"
    else if jsIncludes tagStr "wine" then "wine"
    else if jsIncludes tagStr "beer" || jsIncludes tagStr "ale" || jsIncludes tagStr "lager" then "beer"
    else if jsIncludes tagStr "liqueur" then "other"
    else "spirits"
  | _ => "spirits"

/-- The pattern `v?.substring(0, n) || null` of the spirits
transform. -/
def orNullOptSub (v : JsValue) (n : Nat) : Except String JsValue :=
  match jsSubstringToOpt v n with
  | .error e => .error e
  | .ok w => .ok (jsOr w .null)

/-- The pattern `a?.substring(0, n) || b?.substring(0, n) || null`,
with the short-circuit: `b` is not touched when the first part is
truthy. -/
def orChainOptSub (a b : JsValue) (n : Nat) : Except String JsValue :=
  match jsSubstringToOpt a n with
  | .error e => .error e
  | .ok w =>
    if truthy w then .ok w
    else
      match jsSubstringToOpt b n with
      | .error e => .error e
      | .ok w2 => .ok (jsOr w2 .null)

/-- The spirits transform (`transformSpirit`): builds the `bv_spirits`
row in field order; the `substring` calls raise a TypeError on truthy
non-string inputs, which the embedding surfaces as `Except.error`. -/
def transformSpirit (record : RawRecord) : Except String JsValue :=
  let r := JsValue.obj record
  match jsSubstringTo (jsOr (getField r "name") (jsOr (getField r "brand_name") (.str "Unknown"))) 255 with
  | .error e => .error e
  | .ok name =>
  match orNullOptSub (getField r "brand") 255 with
  | .error e => .error e
  | .ok brand =>
  match orChainOptSub (getField r "subcategory") (getField r "class_type") 100 with
  | .error e => .error e
  | .ok subcategory =>
  match orChainOptSub (getField r "country") (getField r "origin") 100 with
  | .error e => .error e
  | .ok country =>
  match orNullOptSub (getField r "region") 100 with
  | .error e => .error e
  | .ok region =>
  match orNullOptSub (getField r "description") 2000 with
  | .error e => .error e
  | .ok description =>
  match orNullOptSub (getField r "image_url") 500 with
  | .error e => .error e
  | .ok image_url =>
  match orNullOptSub (getField r "tasting_notes") 1000 with
  | .error e => .error e
  | .ok tasting_notes =>
  let category := JsValue.str (mapCategory (getField r "category"))
  let abv :=
    if isNumberType (getField r "abv") then getField r "abv"
    else jsOr (jsParseFloat (getField r "alcohol_content")) .null
  let external_ids :=
    if truthy (getField r "external_ids") then jsonStringify (getField r "external_ids")
    else if truthy (getField r "ttb_id") then jsonStringify (.obj [("ttb_id", getField r "ttb_id")])
    else .null
  .ok (.obj [
    ("name", name),
    ("brand", brand),
    ("category", category),
    ("subcategory", subcategory),
    ("country", country),
    ("region", region),
    ("abv", abv),
    ("description", description),
    ("image_url", image_url),
    ("tasting_notes", tasting_notes),
    ("external_ids", external_ids)])

/-- The cards transform (`transformCard`): a plain field relabelling
with no truncation and no defaulting beyond `external_ids`. -/
def transformCard (record : RawRecord) : Except String JsValue := do
  let r := JsValue.obj record
  pure (.obj [
    ("name", getField r "name"),
    ("set_name", getField r "set"),
    ("rarity", getField r "rarity"),
    ("image_url", getField r "image_url"),
    ("source", getField r "source"),
    ("external_ids",
      if truthy (getField r "external_ids") then jsonStringify (getField r "external_ids") else .null)])

/-- The books transform (`transformBook`). -/
def transformBook (record : RawRecord) : Except String JsValue := do
  let r := JsValue.obj record
  pure (.obj [
    ("title", getField r "name"),
    ("author", getField r "author"),
    ("subject", getField r "subject"),
    ("cover_url", getField r "cover_url"),
    ("download_url", getField r "download_url"),
    ("source", getField r "source"),
    ("external_ids",
      if truthy (getField r "external_ids") then jsonStringify (getField r "external_ids") else .null)])

/-!
Batch uploader (`uploadToSupabase`, `api/scrape.js` lines 738-779).
The outcome of each bulk-insert POST is supplied by an oracle indexed
by batch number.
-/

/-- Result counters of one upload run. -/
structure UploadOutcome where
  uploaded : Nat
  errors : Nat
deriving DecidableEq, Repr

/-- Outcome of one batch POST: success, a non-2xx response, or a
transport-level error. -/
inductive BatchOutcome where
  | ok : BatchOutcome
  | httpError (status : Nat) (body : String) : BatchOutcome
  | transportError (msg : String) : BatchOutcome
deriving DecidableEq, Repr

/-- Whether a batch outcome lands in the error counter. -/
def batchFails : BatchOutcome → Bool
  | .ok => false
  | .httpError _ _ => true
  | .transportError _ => true

/-- The upload loop: consecutive batches of 50, each crediting its size
to exactly one of the two counters as its POST succeeds or fails. -/
def uploadBatchesGo (env : Nat → BatchOutcome) : Nat → List α → UploadOutcome
  | _, [] => ⟨0, 0⟩
  | bi, a :: l =>
    let batch := (a :: l).take 50
    let rest := (a :: l).drop 50
    let restOutcome := uploadBatchesGo env (bi + 1) rest
    if batchFails (env bi) then ⟨restOutcome.uploaded, batch.length + restOutcome.errors⟩
    else ⟨batch.length + restOutcome.uploaded, restOutcome.errors⟩
termination_by _ records => records.length
decreasing_by simp [List.length_drop]; omega

/-- The batch uploader: fails fast when the service credential is not
configured, otherwise accumulates per-batch counters. -/
def uploadToSupabase (serviceKey : Option String) (records : List α) (env : Nat → BatchOutcome) :
    Except String UploadOutcome :=
  if !optTruthy serviceKey then .error "SUPABASE_SERVICE_KEY not configured"
  else .ok (uploadBatchesGo env 0 records)

/-- Consecutive 50-record batches of a record list: the partition the
upload loop walks. -/
def chunks50 : List α → List (List α)
  | [] => []
  | a :: l => (a :: l).take 50 :: chunks50 ((a :: l).drop 50)
termination_by records => records.length
decreasing_by simp [List.length_drop]; omega

/-- Total size of the batches whose POST succeeds. -/
def sumOkBatches (env : Nat → BatchOutcome) : Nat → List (List α) → Nat
  | _, [] => 0
  | bi, b :: rest => (if batchFails (env bi) then 0 else b.length) + sumOkBatches env (bi + 1) rest

/-- Total size of the batches whose POST fails. -/
def sumFailedBatches (env : Nat → BatchOutcome) : Nat → List (List α) → Nat
  | _, [] => 0
  | bi, b :: rest => (if batchFails (env bi) then b.length else 0) + sumFailedBatches env (bi + 1) rest

/-!
Source registry (`SCRAPERS`, `api/scrape.js` lines 58-141) and the
orchestrating request handler (lines 785-864).

The scraper function referenced by each descriptor performs network
traffic; in the handler embedding it is supplied as an oracle
`scrapeFn` keyed by the source key (the per-source fetch loops are
embedded concretely further below, for the claims about them).  The
handler's observable effects — which scrapers it invoked with which
limit, and which upload runs it started — are returned alongside the
response as explicit call logs.
-/

/-- Process configuration (`CONFIG`): the datastore service credential
and the optional Untappd credentials. -/
structure Config where
  supabaseServiceKey : Option String
  untappdClientId : Option String
  untappdClientSecret : Option String

/-- Registry entry for one source (`fn` is identified by the source
key and supplied via the handler's scrape oracle). -/
structure SourceDescriptor where
  displayName : String
  schedule : String
  estimated : Nat
  requiresAuth : Bool
deriving DecidableEq, Repr

/-- Registry entry for one domain. -/
structure DomainDescriptor where
  table : String
  sources : List (String × SourceDescriptor)
  transform : RawRecord → Except String JsValue

/-- The spirits sources, in registry declaration order. -/
def spiritsSources : List (String × SourceDescriptor) :=
  [("ttb_cola", ⟨"TTB COLA Registry", "daily", 500000, false⟩),
   ("openfoodfacts", ⟨"Open Food Facts", "daily", 20000, false⟩),
   ("brewery", ⟨"Open Brewery DB", "weekly", 9000, false⟩),
   ("punkapi", ⟨"PunkAPI (BrewDog)", "weekly", 300, false⟩),
   ("cocktaildb", ⟨"TheCocktailDB", "weekly", 600, false⟩),
   ("untappd", ⟨"Untappd", "daily", 1000, true⟩)]

/-- The cards sources. -/
def cardsSources : List (String × SourceDescriptor) :=
  [("pokemon", ⟨"Pokemon TCG API", "weekly", 15000, false⟩),
   ("scryfall", ⟨"Scryfall (MTG)", "weekly", 80000, false⟩)]

/-- The books sources. -/
def booksSources : List (String × SourceDescriptor) :=
  [("openlibrary", ⟨"Open Library", "weekly", 50000, false⟩),
   ("gutenberg", ⟨"Project Gutenberg", "monthly", 70000, false⟩)]

/-- The scraper registry (`SCRAPERS`). -/
def SCRAPERS : List (String × DomainDescriptor) :=
  [("spirits", ⟨"bv_spirits", spiritsSources, transformSpirit⟩),
   ("cards", ⟨"cards", cardsSources, transformCard⟩),
   ("books", ⟨"books", booksSources, transformBook⟩)]

/-- Request query parameters (absent parameter = absent key). -/
structure Query where
  type : Option String
  source : Option String
  skip_upload : Option String
  limit : Option String

/-- Per-source outcome recorded in `results.sources`: counters, an
error message, or a skip marker. -/
inductive SourceEntry where
  | stats (scraped uploaded errors : Nat) : SourceEntry
  | err (message : String) : SourceEntry
  | skipped (reason : String) : SourceEntry
deriving DecidableEq, Repr

/-- The handler's HTTP response. -/
inductive HandlerResponse where
  | badRequest (message : String) (valid : List String) : HandlerResponse
  | report (domainType : String) (sources : List (String × SourceEntry))
      (totalScraped totalUploaded totalErrors : Nat) (timestamp : String) : HandlerResponse
  | optionsEnd : HandlerResponse

/-- HTTP status code of a handler response. -/
def HandlerResponse.statusCode : HandlerResponse → Nat
  | .badRequest _ _ => 400
  | .report _ _ _ _ _ _ => 200
  | .optionsEnd => 200

/-- One recorded invocation of a source scraper: the source key and
the `limit` passed in the options object. -/
structure ScrapeCall where
  sourceKey : String
  limit : JsValue

/-- One recorded invocation of the batch uploader: destination table
and number of records handed over. -/
structure UploadCall where
  table : String
  records : Nat
deriving DecidableEq, Repr

/-- Oracle giving each source scraper's behaviour for this run: the
returned raw records, or the thrown error's message. -/
abbrev ScrapeEnv := String → JsValue → Except String (List RawRecord)

/-- Oracle giving the batch-POST outcomes of the upload run started
for a given source. -/
abbrev UploadEnv := String → Nat → BatchOutcome

/-- JavaScript `records.map(scraper.transform)`: transforms in order,
the first thrown error propagating. -/
def mapTransform (transform : RawRecord → Except String JsValue) :
    List RawRecord → Except String (List JsValue)
  | [] => .ok []
  | r :: rest => do
    let v ← transform r
    let vs ← mapTransform transform rest
    pure (v :: vs)

/-- Result of running one resolved source through the
scrape-transform-upload body of the handler loop. -/
structure SourceRun where
  entry : SourceEntry
  scrapedContrib : Nat
  uploadedContrib : Nat
  errorsContrib : Nat
  scrapeCalls : List ScrapeCall
  uploadCalls : List UploadCall

/-- The body of the handler's per-source loop: auth skip, scrape,
transform, optional upload, with the per-source try/catch recording a
thrown error as that source's entry. -/
def processSource (cfg : Config) (scrapeFn : ScrapeEnv) (uploadEnv : UploadEnv)
    (domain : DomainDescriptor) (skipUpload : Option String) (optLimit : JsValue)
    (key : String) (desc : SourceDescriptor) : SourceRun :=
  if desc.requiresAuth && !optTruthy cfg.untappdClientId then
    ⟨.skipped "Requires authentication", 0, 0, 0, [], []⟩
  else
    match scrapeFn key optLimit with
    | .error msg => ⟨.err msg, 0, 0, 0, [⟨key, optLimit⟩], []⟩
    | .ok records =>
      match mapTransform domain.transform records with
      | .error msg => ⟨.err msg, 0, 0, 0, [⟨key, optLimit⟩], []⟩
      | .ok transformed =>
        if skipUpload ≠ some "true" ∧ 0 < transformed.length then
          match uploadToSupabase cfg.supabaseServiceKey transformed (uploadEnv key) with
          | .error msg =>
            ⟨.err msg, transformed.length, 0, 0, [⟨key, optLimit⟩],
             [⟨domain.table, transformed.length⟩]⟩
          | .ok outcome =>
            ⟨.stats transformed.length outcome.uploaded outcome.errors, transformed.length,
             outcome.uploaded, outcome.errors, [⟨key, optLimit⟩],
             [⟨domain.table, transformed.length⟩]⟩
        else ⟨.stats transformed.length 0 0, transformed.length, 0, 0, [⟨key, optLimit⟩], []⟩

/-- Mutable accumulator of the handler loop (`results` plus the call
logs). -/
structure RunAccum where
  entries : List (String × SourceEntry)
  totalScraped : Nat
  totalUploaded : Nat
  totalErrors : Nat
  scrapeCalls : List ScrapeCall
  uploadCalls : List UploadCall

/-- The sequential per-source loop of the handler. -/
def handlerLoop (cfg : Config) (scrapeFn : ScrapeEnv) (uploadEnv : UploadEnv)
    (domain : DomainDescriptor) (skipUpload : Option String) (optLimit : JsValue) :
    List (String × SourceDescriptor) → RunAccum → RunAccum
  | [], acc => acc
  | (key, desc) :: rest, acc =>
    let run := processSource cfg scrapeFn uploadEnv domain skipUpload optLimit key desc
    handlerLoop cfg scrapeFn uploadEnv domain skipUpload optLimit rest
      ⟨acc.entries ++ [(key, run.entry)],
       acc.totalScraped + run.scrapedContrib,
       acc.totalUploaded + run.uploadedContrib,
       acc.totalErrors + run.errorsContrib,
       acc.scrapeCalls ++ run.scrapeCalls,
       acc.uploadCalls ++ run.uploadCalls⟩

/-- Source resolution: `all` expands to every registered source in
registry order; a named selector keeps exactly the matching entry;
anything else resolves to nothing (a 400 in the handler). -/
def resolveSources (domain : DomainDescriptor) (source : Option String) :
    List (String × SourceDescriptor) :=
  if source = some "all" then domain.sources
  else
    match source with
    | some s => domain.sources.filter (fun p => p.1 = s)
    | none => []

/-- Limit option handed to every scraper of a run:
`limit ? parseInt(limit) : undefined`. -/
def parseLimitParam : Option String → JsValue
  | some l => if l ≠ "" then jsParseInt l else .undefined
  | none => .undefined

/-- The handler's complete result: response plus observable effect
logs. -/
structure HandlerResult where
  response : HandlerResponse
  scrapeCalls : List ScrapeCall
  uploadCalls : List UploadCall

/-- The request handler (`handler`): CORS preflight, request
validation against the registry, the sequential per-source loop, and
the aggregated 200 report.  `now` stands for `new Date().toISOString()`. -/
def handler (cfg : Config) (scrapeFn : ScrapeEnv) (uploadEnv : UploadEnv)
    (now : String) (method : String) (q : Query) : HandlerResult :=
  if method = "OPTIONS" then ⟨.optionsEnd, [], []⟩
  else
    let typeVal := q.type.getD ""
    match if typeVal = "" then none else SCRAPERS.lookup typeVal with
    | none => ⟨.badRequest "Invalid type" (SCRAPERS.map (fun p => p.1)), [], []⟩
    | some domain =>
      let resolved := resolveSources domain q.source
      if resolved.isEmpty then
        ⟨.badRequest "Invalid source" (domain.sources.map (fun p => p.1)), [], []⟩
      else
        let optLimit : JsValue := parseLimitParam q.limit
        let acc := handlerLoop cfg scrapeFn uploadEnv domain q.skip_upload optLimit resolved
          ⟨[], 0, 0, 0, [], []⟩
        ⟨.report typeVal acc.entries acc.totalScraped acc.totalUploaded acc.totalErrors now,
         acc.scrapeCalls, acc.uploadCalls⟩

/-!
Source scrapers (`api/scrape.js` lines 147-670).  Each network fetch
is an oracle parameter; the `while` loops driven by remote pagination
data are given structural fuel and return `none` when the fuel runs
out (the case in which the JavaScript loop would still be running), so
every theorem about a scraper's return value is about the values the
JavaScript function can actually return.
-/

/-- Effective limit of a scraper: `options.limit || default`. -/
def jsLimitValue (options : RawRecord) (d : Rat) : JsValue :=
  jsOr (getField (.obj options) "limit") (.num d)

/-- JavaScript `baseId + seq` where `baseId` came from `parseInt`. -/
def jsAddNum (v : JsValue) (n : Nat) : JsValue :=
  match v with
  | .num q => .num (q + n)
  | _ => .nan

/-- TTB COLA keyspace enumeration, inner loop over sampled sequence
numbers of one year (`for (let seq = 0; seq < 100000 && totalScraped <
limit; seq += step)` with `step = 100`); the oracle maps a TTB id to
the parsed detail record (`none` for the null result of
`fetchTTBColaDetails`, whose own failures are silent). -/
def ttbInner (env : String → Option RawRecord) (limit baseId : JsValue) :
    List Nat → Nat → List RawRecord → Nat × List RawRecord
  | [], total, results => (total, results)
  | seq :: rest, total, results =>
    if jsNumLt total limit then
      let ttbId := padStart (jsToString (jsAddNum baseId seq)) 10 '0'
      match env ttbId with
      | none => ttbInner env limit baseId rest total results
      | some record =>
        if truthy (getField (.obj record) "brand_name") then
          ttbInner env limit baseId rest (total + 1) (results ++ [record])
        else ttbInner env limit baseId rest total results
    else (total, results)

/-- TTB COLA outer loop over the last three years. -/
def ttbOuter (env : String → Option RawRecord) (limit : JsValue) :
    List Int → Nat → List RawRecord → Nat × List RawRecord
  | [], total, results => (total, results)
  | year :: rest, total, results =>
    if jsNumGe total limit then (total, results)
    else
      let yearPrefix := padStart (toString year) 2 '0'
      let baseId := jsParseInt (yearPrefix ++ "00000001")
      let r := ttbInner env limit baseId ((List.range 1000).map (fun k => k * 100))
        total results
      ttbOuter env limit rest r.1 r.2

/-- The TTB COLA Registry scraper (`scrapeTTBCOLA`); `currentYear` is
`new Date().getFullYear() % 100`. -/
def scrapeTTBCOLA (env : String → Option RawRecord) (currentYear : Int)
    (options : RawRecord) : List RawRecord :=
  let limit := jsLimitValue options 5000
  (ttbOuter env limit [currentYear, currentYear - 1, currentYear - 2] 0 []).2

/-- The Open Food Facts category list. -/
def offCategories : List String :=
  ["en:alcoholic-beverages", "en:wines", "en:beers", "en:spirits", "en:whiskeys",
   "en:vodkas", "en:rums", "en:tequilas", "en:gins", "en:brandies", "en:liqueurs"]

/-- Raw record built from one Open Food Facts product. -/
def offRecord (product : JsValue) : RawRecord :=
  [("name", jsOr (getField product "product_name") (getField product "product_name_en")),
   ("brand", getField product "brands"),
   ("category", .str (mapOFFCategory (getField product "categories_tags"))),
   ("description", getField product "generic_name"),
   ("image_url", getField product "image_url"),
   ("barcode", getField product "code"),
   ("origin", getField product "origins"),
   ("alcohol_content", jsOr (jsParseFloat (getField product "alcohol_100g")) .null),
   ("source", .str "openfoodfacts"),
   ("external_ids", .obj [("off_id", getField product "code")])]

/-- Per-product push loop of `scrapeOpenFoodFacts`: stops as soon as
`total >= limit`. -/
def offPushProducts (limit : JsValue) :
    List JsValue → Nat → List RawRecord → Nat × List RawRecord
  | [], total, results => (total, results)
  | p :: rest, total, results =>
    if jsNumGe total limit then (total, results)
    else offPushProducts limit rest (total + 1) (results ++ [offRecord p])

/-- Page loop of `scrapeOpenFoodFacts` for one category; the oracle
maps (category, page) to the JSON payload or the thrown error. -/
def offCategoryGo (env : String → Nat → Except String JsValue) (limit : JsValue)
    (category : String) : Nat → Nat → Nat → List RawRecord → Option (Nat × List RawRecord)
  | 0, _, _, _ => none
  | fuel + 1, page, total, results =>
    if jsNumLt total limit then
      match env category page with
      | .error _ => some (total, results)
      | .ok data =>
        let products := getField data "products"
        if !truthy products then some (total, results)
        else if jsLengthIsZero products then some (total, results)
        else
          match jsIterate products with
          | none => some (total, results)
          | some ps =>
            let pr := offPushProducts limit ps total results
            offCategoryGo env limit category fuel (page + 1) pr.1 pr.2
    else some (total, results)

/-- Category loop of `scrapeOpenFoodFacts`. -/
def offOuter (env : String → Nat → Except String JsValue) (limit : JsValue) (fuel : Nat) :
    List String → Nat → List RawRecord → Option (Nat × List RawRecord)
  | [], total, results => some (total, results)
  | cat :: rest, total, results =>
    if jsNumGe total limit then some (total, results)
    else
      match offCategoryGo env limit cat fuel 1 total results with
      | none => none
      | some (t2, r2) => offOuter env limit fuel rest t2 r2

/-- The Open Food Facts scraper (`scrapeOpenFoodFacts`). -/
def scrapeOpenFoodFacts (env : String → Nat → Except String JsValue)
    (options : RawRecord) (fuel : Nat) : Option (List RawRecord) :=
  let limit := jsLimitValue options 20000
  (offOuter env limit fuel offCategories 0 []).map (fun p => p.2)

/-- Raw record built from one Open Brewery DB entry. -/
def breweryRecord (brewery : JsValue) : RawRecord :=
  [("name", getField brewery "name"),
   ("brand", getField brewery "name"),
   ("category", .str "beer"),
   ("subcategory", getField brewery "brewery_type"),
   ("country", jsOr (getField brewery "country") (.str "United States")),
   ("region", getField brewery "state"),
   ("description", .str (jsToString (getField brewery "brewery_type") ++ " brewery in "
      ++ jsToString (getField brewery "city") ++ ", " ++ jsToString (getField brewery "state"))),
   ("source", .str "openbrewerydb"),
   ("external_ids", .obj [("brewery_id", getField brewery "id")])]

/-- Page loop of `scrapeOpenBreweryDB`; the oracle maps the page number
to the JSON array (or thrown error). -/
def breweryGo (env : Nat → Except String JsValue) (limit : JsValue) :
    Nat → Nat → List RawRecord → Option (List RawRecord)
  | 0, _, _ => none
  | fuel + 1, page, results =>
    if jsNumLt results.length limit then
      match env page with
      | .error _ => some results
      | .ok breweries =>
        if !truthy breweries then some results
        else if jsLengthIsZero breweries then some results
        else
          match jsIterate breweries with
          | none => some results
          | some bs => breweryGo env limit fuel (page + 1) (results ++ bs.map breweryRecord)
    else some results

/-- The Open Brewery DB scraper (`scrapeOpenBreweryDB`). -/
def scrapeOpenBreweryDB (env : Nat → Except String JsValue) (options : RawRecord)
    (fuel : Nat) : Option (List RawRecord) :=
  let limit := jsLimitValue options 9000
  (breweryGo env limit fuel 1 []).map (fun results => jsSliceTo results limit)

/-- Raw record built from one PunkAPI beer. -/
def beerRecord (beer : JsValue) : RawRecord :=
  [("name", getField beer "name"),
   ("brand", .str "BrewDog"),
   ("category", .str "beer"),
   ("subcategory", getField beer "tagline"),
   ("abv", getField beer "abv"),
   ("description", getField beer "description"),
   ("image_url", getField beer "image_url"),
   ("tasting_notes", getField beer "brewers_tips"),
   ("source", .str "punkapi"),
   ("external_ids", .obj [("punkapi_id", getField beer "id")])]

/-- Page loop of `scrapePunkAPI`. -/
def punkGo (env : Nat → Except String JsValue) (limit : JsValue) :
    Nat → Nat → List RawRecord → Option (List RawRecord)
  | 0, _, _ => none
  | fuel + 1, page, results =>
    if jsNumLt results.length limit then
      match env page with
      | .error _ => some results
      | .ok beers =>
        if !truthy beers then some results
        else if jsLengthIsZero beers then some results
        else
          match jsIterate beers with
          | none => some results
          | some bs => punkGo env limit fuel (page + 1) (results ++ bs.map beerRecord)
    else some results

/-- The PunkAPI scraper (`scrapePunkAPI`). -/
def scrapePunkAPI (env : Nat → Except String JsValue) (options : RawRecord)
    (fuel : Nat) : Option (List RawRecord) :=
  let limit := jsLimitValue options 500
  (punkGo env limit fuel 1 []).map (fun results => jsSliceTo results limit)

/-- The 26 search letters of the CocktailDB free tier. -/
def cocktailLetters : List Char :=
  "abcdefghijklmnopqrstuvwxyz".toList

/-- Ingredient list of one drink: `strIngredient1` .. `strIngredient15`,
keeping the truthy ones. -/
def cocktailIngredients (drink : JsValue) : List JsValue :=
  (List.range 15).filterMap (fun i =>
    let ing := getField drink ("strIngredient" ++ toString (i + 1))
    if truthy ing then some ing else none)

/-- Raw record built from one CocktailDB drink. -/
def cocktailRecord (drink : JsValue) : RawRecord :=
  [("name", getField drink "strDrink"),
   ("brand", .null),
   ("category", .str "cocktail"),
   ("subcategory", getField drink "strCategory"),
   ("description", getField drink "strInstructions"),
   ("image_url", getField drink "strDrinkThumb"),
   ("tasting_notes", .str (jsJoinList (cocktailIngredients drink) ", ")),
   ("source", .str "cocktaildb"),
   ("external_ids", .obj [("cocktaildb_id", getField drink "idDrink")])]

/-- The CocktailDB scraper (`scrapeCocktailDB`): one fetch per letter,
errors skipping to the next letter.  Note that the `options` argument
is never consulted: the loop has no limit check and no final slice. -/
def scrapeCocktailDB (env : Char → Except String JsValue) (_options : RawRecord) :
    List RawRecord :=
  cocktailLetters.foldl (fun results letter =>
    match env letter with
    | .error _ => results
    | .ok data =>
      let drinks := getField data "drinks"
      if truthy drinks then
        match jsIterate drinks with
        | some ds => results ++ ds.map cocktailRecord
        | none => results
      else results) []

/-- The Untappd scraper (`scrapeUntappd`): returns no records whether
or not credentials are configured (the credentialed branch is an
unimplemented TODO returning the empty accumulator). -/
def scrapeUntappd (cfg : Config) (_options : RawRecord) : List RawRecord :=
  if !optTruthy cfg.untappdClientId || !optTruthy cfg.untappdClientSecret then []
  else []

/-- Raw record built from one Pokemon TCG card. -/
def pokemonRecord (card : JsValue) : RawRecord :=
  [("name", getField card "name"),
   ("set", getFieldOpt (getField card "set") "name"),
   ("rarity", getField card "rarity"),
   ("image_url", jsOr (getFieldOpt (getField card "images") "large")
      (getFieldOpt (getField card "images") "small")),
   ("source", .str "pokemontcg"),
   ("external_ids", .obj [("pokemon_id", getField card "id")])]

/-- Page loop of `scrapePokemonTCG`; the payload's record array lives
under `data.data`. -/
def pokemonGo (env : Nat → Except String JsValue) (limit : JsValue) :
    Nat → Nat → List RawRecord → Option (List RawRecord)
  | 0, _, _ => none
  | fuel + 1, page, results =>
    if jsNumLt results.length limit then
      match env page with
      | .error _ => some results
      | .ok data =>
        let dd := getField data "data"
        if !truthy dd then some results
        else if jsLengthIsZero dd then some results
        else
          match jsIterate dd with
          | none => some results
          | some cards => pokemonGo env limit fuel (page + 1) (results ++ cards.map pokemonRecord)
    else some results

/-- The Pokemon TCG scraper (`scrapePokemonTCG`). -/
def scrapePokemonTCG (env : Nat → Except String JsValue) (options : RawRecord)
    (fuel : Nat) : Option (List RawRecord) :=
  let limit := jsLimitValue options 15000
  (pokemonGo env limit fuel 1 []).map (fun results => jsSliceTo results limit)

/-- Raw record built from one Scryfall card. -/
def scryfallRecord (card : JsValue) : RawRecord :=
  [("name", getField card "name"),
   ("set", getField card "set_name"),
   ("rarity", getField card "rarity"),
   ("image_url", jsOr (getFieldOpt (getField card "image_uris") "normal")
      (getFieldOpt (getField card "image_uris") "small")),
   ("source", .str "scryfall"),
   ("external_ids", .obj [("scryfall_id", getField card "id")])]

/-- Cursor loop of `scrapeScryfall`: follows `next_page` while
`has_more`; the oracle maps the (stringified) URL to the payload. -/
def scryfallGo (env : String → Except String JsValue) (limit : JsValue) :
    Nat → JsValue → List RawRecord → Option (List RawRecord)
  | 0, _, _ => none
  | fuel + 1, url, results =>
    if jsNumLt results.length limit && truthy url then
      match env (jsToString url) with
      | .error _ => some results
      | .ok data =>
        let dd := getField data "data"
        if truthy dd then
          match jsIterate dd with
          | none => some results
          | some cards =>
            let results2 := results ++ cards.map scryfallRecord
            let nextUrl := if truthy (getField data "has_more")
              then getField data "next_page" else .null
            scryfallGo env limit fuel nextUrl results2
        else
          let nextUrl := if truthy (getField data "has_more")
            then getField data "next_page" else .null
          scryfallGo env limit fuel nextUrl results
    else some results

/-- The Scryfall scraper (`scrapeScryfall`). -/
def scrapeScryfall (env : String → Except String JsValue) (options : RawRecord)
    (fuel : Nat) : Option (List RawRecord) :=
  let limit := jsLimitValue options 80000
  (scryfallGo env limit fuel (.str "https://api.scryfall.com/cards/search?q=*") []).map
    (fun results => jsSliceTo results limit)

/-- The Open Library subject list. -/
def olSubjects : List String :=
  ["fiction", "science", "history", "biography", "fantasy", "mystery"]

/-- Optional-chained element access `v?.[i]`. -/
def jsIndexOpt (v : JsValue) (i : Nat) : JsValue :=
  match v with
  | .undefined => .undefined
  | .null => .undefined
  | .arr xs => xs.getD i .undefined
  | .str s => if i < s.length then .str (String.singleton (s.toList.getD i ' ')) else .undefined
  | .obj fields => getField (.obj fields) (toString i)
  | _ => .undefined

/-- Raw record built from one Open Library work. -/
def olRecord (subject : String) (work : JsValue) : RawRecord :=
  [("name", getField work "title"),
   ("author", getFieldOpt (jsIndexOpt (getField work "authors") 0) "name"),
   ("subject", .str subject),
   ("cover_url", if truthy (getField work "cover_id")
      then .str ("https://covers.openlibrary.org/b/id/"
        ++ jsToString (getField work "cover_id") ++ "-M.jpg")
      else .null),
   ("source", .str "openlibrary"),
   ("external_ids", .obj [("ol_key", getField work "key")])]

/-- Offset loop of `scrapeOpenLibrary` for one subject; the oracle maps
(subject, offset) to the payload. -/
def olSubjectGo (env : String → Nat → Except String JsValue) (limit : JsValue)
    (subject : String) : Nat → Nat → List RawRecord → Option (List RawRecord)
  | 0, _, _ => none
  | fuel + 1, offset, results =>
    if jsNumLt results.length limit then
      match env subject offset with
      | .error _ => some results
      | .ok data =>
        let works := getField data "works"
        if !truthy works then some results
        else if jsLengthIsZero works then some results
        else
          match jsIterate works with
          | none => some results
          | some ws =>
            olSubjectGo env limit subject fuel (offset + 100) (results ++ ws.map (olRecord subject))
    else some results

/-- Subject loop of `scrapeOpenLibrary`. -/
def olOuter (env : String → Nat → Except String JsValue) (limit : JsValue) (fuel : Nat) :
    List String → List RawRecord → Option (List RawRecord)
  | [], results => some results
  | subject :: rest, results =>
    if jsNumGe results.length limit then some results
    else
      match olSubjectGo env limit subject fuel 0 results with
      | none => none
      | some results2 => olOuter env limit fuel rest results2

/-- The Open Library scraper (`scrapeOpenLibrary`). -/
def scrapeOpenLibrary (env : String → Nat → Except String JsValue) (options : RawRecord)
    (fuel : Nat) : Option (List RawRecord) :=
  let limit := jsLimitValue options 50000
  (olOuter env limit fuel olSubjects []).map (fun results => jsSliceTo results limit)

/-- JavaScript `v?.join(sep)`: a TypeError unless `v` is an array or
nullish. -/
def jsJoinOpt (v : JsValue) (sep : String) : Except String JsValue :=
  match v with
  | .undefined => .ok .undefined
  | .null => .ok .undefined
  | .arr xs => .ok (.str (jsJoinList xs sep))
  | _ => .error "book.subjects.join is not a function"

/-- Raw record built from one Gutenberg book; evaluating the `subject`
field can raise. -/
def gutenbergRecord (book : JsValue) : Except String RawRecord := do
  let subj ← jsJoinOpt (getField book "subjects") ", "
  pure [("name", getField book "title"),
    ("author", getFieldOpt (jsIndexOpt (getField book "authors") 0) "name"),
    ("subject", subj),
    ("download_url", jsOr (getFieldOpt (getField book "formats") "text/plain; charset=utf-8")
       (getFieldOpt (getField book "formats") "text/plain")),
    ("source", .str "gutenberg"),
    ("external_ids", .obj [("gutenberg_id", getField book "id")])]

/-- Per-book push loop of `scrapeGutenberg`: earlier pushes survive a
throw at a later book (the single try/catch wraps the whole loop). -/
def gutenbergPush : List JsValue → List RawRecord → List RawRecord × Bool
  | [], acc => (acc, false)
  | b :: rest, acc =>
    match gutenbergRecord b with
    | .error _ => (acc, true)
    | .ok r => gutenbergPush rest (acc ++ [r])

/-- Cursor loop of `scrapeGutenberg`, following `data.next`. -/
def gutenbergGo (env : String → Except String JsValue) (limit : JsValue) :
    Nat → JsValue → List RawRecord → Option (List RawRecord)
  | 0, _, _ => none
  | fuel + 1, nextUrl, results =>
    if jsNumLt results.length limit && truthy nextUrl then
      match env (jsToString nextUrl) with
      | .error _ => some results
      | .ok data =>
        let rs := getField data "results"
        if truthy rs then
          match jsIterate rs with
          | none => some results
          | some books =>
            let (results2, threw) := gutenbergPush books results
            if threw then some results2
            else gutenbergGo env limit fuel (getField data "next") results2
        else gutenbergGo env limit fuel (getField data "next") results
    else some results

/-- The Project Gutenberg scraper (`scrapeGutenberg`). -/
def scrapeGutenberg (env : String → Except String JsValue) (options : RawRecord)
    (fuel : Nat) : Option (List RawRecord) :=
  let limit := jsLimitValue options 1000
  (gutenbergGo env limit fuel (.str "https://gutendex.com/books/") []).map
    (fun results => jsSliceTo results limit)

/-!
Auxiliary definitions used only to state and check the claims.
-/

/-- The per-source entry list of a report response. -/
def reportEntries : HandlerResponse → List (String × SourceEntry)
  | .report _ e _ _ _ _ => e
  | _ => []

/-- Whether a value, if it is a string, stays within a length cap. -/
def strMaxLen (v : JsValue) (n : Nat) : Bool :=
  match v with
  | .str s => s.length ≤ n
  | _ => true

/-- Values on which a (possibly optional-chained) `substring` call is
safe: absent, null, or an actual string. -/
def strOk (v : JsValue) : Bool :=
  match v with
  | .undefined => true
  | .null => true
  | .str _ => true
  | _ => false

/-- The receiver of the `substring` call computing the spirit `name`:
`record.name || record.brand_name || 'Unknown'`. -/
def spiritNameExpr (record : RawRecord) : JsValue :=
  jsOr (getField (.obj record) "name")
    (jsOr (getField (.obj record) "brand_name") (.str "Unknown"))

/-- The raw-record fields the spirits transform reads. -/
def spiritInputFields : List String :=
  ["name", "brand_name", "brand", "category", "subcategory", "class_type", "country",
   "origin", "region", "abv", "alcohol_content", "description", "image_url",
   "tasting_notes", "external_ids", "ttb_id"]

/-- The fields of a raw record on which the spirits transform invokes
`substring` behind optional chaining. -/
def spiritOptStringFields : List String :=
  ["brand", "subcategory", "class_type", "country", "origin", "region", "description",
   "image_url", "tasting_notes"]

/-- The row the spirits transform produces when every input field is
absent: every destination field carries its deterministic default. -/
def defaultSpiritRow : JsValue :=
  .obj [
    ("name", .str "Unknown"),
    ("brand", .null),
    ("category", .str "spirits"),
    ("subcategory", .null),
    ("country", .null),
    ("region", .null),
    ("abv", .null),
    ("description", .null),
    ("image_url", .null),
    ("tasting_notes", .null),
    ("external_ids", .null)]

/-- Modelled from the spec: the destination schema of the cards domain
is not part of this repository (the Supabase tables are external); per
the data model every record is expected to carry a name field, so
`name` is taken as the required-field set of the cards schema. -/
def cardsRequiredFields : List String := ["name"]

/-- The row the cards transform produces from the empty raw record. -/
def emptyCardRow : JsValue :=
  .obj [
    ("name", .undefined),
    ("set_name", .undefined),
    ("rarity", .undefined),
    ("image_url", .undefined),
    ("source", .undefined),
    ("external_ids", .null)]

/-- A destination field counts as present with a value only when it is
not `undefined` (JSON serialization drops undefined-valued fields, so
such a field never reaches the datastore). -/
def presentField (row : JsValue) (f : String) : Bool :=
  match getField row f with
  | .undefined => false
  | _ => true

/-- Declared maximum lengths of the string fields of the spirits
destination row, as the `substring` caps in `transformSpirit`. -/
def spiritFieldMax : List (String × Nat) :=
  [("name", 255), ("brand", 255), ("subcategory", 100), ("country", 100), ("region", 100),
   ("description", 2000), ("image_url", 500), ("tasting_notes", 1000)]

/-- Spec-side reading of `mapCategory` as data: the ordered substring
ladder (keyword alternatives, result), to be matched first-hit-first. -/
def categoryLadderRules : List (List String × String) :=
  [(["bourbon", "whiskey", "whisky"], "bourbon"),
   (["vodka"], "vodka"),
   (["rum"], "rum"),
   (["tequila", "mezcal"], "tequila"),
   (["gin"], "gin"),
   (["brandy", "cognac"], "brandy"),
   (["wine"], "wine"),
   (["beer", "ale", "lager", "malt"], "beer"),
   (["cocktail"], "cocktail"),
   (["spirits"], "spirits")]

/-- Spec-side reading of `mapOFFCategory`'s ladder. -/
def offLadderRules : List (List String × String) :=
  [(["whiskey", "whisky", "bourbon"], "bourbon"),
   (["vodka"], "vodka"),
   (["rum"], "rum"),
   (["tequila", "mezcal"], "tequila"),
   (["gin"], "gin"),
   (["brandy", "cognac"], "brandy"),
   (["wine"], "wine"),
   (["beer", "ale", "lager"], "beer"),
   (["liqueur"], "other")]

/-- First-match-wins evaluation of an ordered substring ladder, with a
terminal catch-all. -/
def ladderFirstMatch (c : String) (dflt : String) : List (List String × String) → String
  | [] => dflt
  | (keys, result) :: rest =>
    if keys.any (fun k => jsIncludes c k) then result else ladderFirstMatch c dflt rest

/-- All keywords of a ladder. -/
def ladderKeywords (rules : List (List String × String)) : List String :=
  (rules.map (fun p => p.1)).flatten

/-- Fetch oracle on which every attempt is rate limited: the server
answers HTTP 429 every time. -/
def always429 : Nat → FetchAttempt := fun _ => .response ⟨429⟩

/-- Concrete network for the CocktailDB counterexample: the letter `a`
page carries two drinks, every other letter none. -/
def cocktailEnvCx : Char → Except String JsValue := fun c =>
  if c = 'a' then
    .ok (.obj [("drinks", .arr [
      .obj [("strDrink", .str "Margarita"), ("idDrink", .str "11007")],
      .obj [("strDrink", .str "Mojito"), ("idDrink", .str "11000")]])])
  else .ok (.obj [])

/-- Upload-batch oracle for the uploader witnesses: the first batch
POST fails with a transport error, every later one succeeds. -/
def uploadEnvW : Nat → BatchOutcome :=
  fun bi => if bi = 0 then .transportError "connection reset" else .ok

/-- The spirits domain entry of the registry. -/
def spiritsDomain : DomainDescriptor :=
  ⟨"bv_spirits", spiritsSources, transformSpirit⟩

/-- Configuration with the datastore credential but no Untappd
credentials. -/
def cfgNoAuth : Config := ⟨some "svc", none, none⟩

/-- Scrape oracle on which the punkapi source throws and every other
source returns no records. -/
def scrapeFnPunkErr : ScrapeEnv :=
  fun key _ => if key = "punkapi" then .error "boom" else .ok []

/-- Upload oracle on which every batch succeeds. -/
def uploadEnvOk : UploadEnv := fun _ _ => .ok

/-- Request for every spirits source. -/
def queryAll : Query := ⟨some "spirits", some "all", none, none⟩

/-- Dry-run request for the punkapi source. -/
def queryPunkSkip : Query := ⟨some "spirits", some "punkapi", some "true", none⟩

/-- Request for the credential-requiring untappd source. -/
def queryUntappd : Query := ⟨some "spirits", some "untappd", none, none⟩

/-- The punkapi source descriptor. -/
def punkDesc : SourceDescriptor := ⟨"PunkAPI (BrewDog)", "weekly", 300, false⟩

/-- The untappd source descriptor. -/
def untappdDesc : SourceDescriptor := ⟨"Untappd", "daily", 1000, true⟩

/-- Three stub raw beer records. -/
def punkStub : List RawRecord :=
  [[("name", JsValue.str "Punk IPA")],
   [("name", JsValue.str "Trashy Blonde")],
   [("name", JsValue.str "Berliner Weisse")]]

/-- The default spirits row with a given name. -/
def spiritRowNamed (nm : String) : JsValue :=
  .obj [
    ("name", .str nm),
    ("brand", .null),
    ("category", .str "spirits"),
    ("subcategory", .null),
    ("country", .null),
    ("region", .null),
    ("abv", .null),
    ("description", .null),
    ("image_url", .null),
    ("tasting_notes", .null),
    ("external_ids", .null)]

/-- The transforms of the three stub records. -/
def punkRowsStub : List JsValue :=
  [spiritRowNamed "Punk IPA", spiritRowNamed "Trashy Blonde", spiritRowNamed "Berliner Weisse"]

/-- Scrape oracle returning the three stub records for punkapi. -/
def scrapeFnPunkStub : ScrapeEnv :=
  fun key _ => if key = "punkapi" then .ok punkStub else .ok []

/-- TTB detail oracle with no valid COLA ids. -/
def ttbEnvW : String → Option RawRecord := fun _ => none

/-- PunkAPI page oracle answering an empty beer array. -/
def punkEnvW : Nat → Except String JsValue := fun _ => .ok (.arr [])

/-- The runs the handler loop performs, one per resolved source. -/
def sourceRuns (cfg : Config) (scrapeFn : ScrapeEnv) (uploadEnv : UploadEnv)
    (domain : DomainDescriptor) (skipUpload : Option String) (optLimit : JsValue)
    (sources : List (String × SourceDescriptor)) : List SourceRun :=
  sources.map (fun p => processSource cfg scrapeFn uploadEnv domain skipUpload optLimit p.1 p.2)

/-- The entry list those runs produce. -/
def runEntries (cfg : Config) (scrapeFn : ScrapeEnv) (uploadEnv : UploadEnv)
    (domain : DomainDescriptor) (skipUpload : Option String) (optLimit : JsValue)
    (sources : List (String × SourceDescriptor)) : List (String × SourceEntry) :=
  sources.map (fun p =>
    (p.1, (processSource cfg scrapeFn uploadEnv domain skipUpload optLimit p.1 p.2).entry))

/-!
Helper lemmas.
-/

theorem substringTo_length_le (s : String) (n : Nat) : (substringTo s n).length ≤ n := by
  simp only [substringTo, String.length, String.toList]
  simpa using List.length_take_le n s.data

theorem jsSubstringTo_ok (v : JsValue) (n : Nat) (w : JsValue)
    (h : jsSubstringTo v n = .ok w) : ∃ s, v = .str s ∧ w = .str (substringTo s n) := by
  cases v <;> simp [jsSubstringTo] at h <;> exact ⟨_, rfl, h.symm⟩

theorem jsSubstringToOpt_ok (v : JsValue) (n : Nat) (w : JsValue)
    (h : jsSubstringToOpt v n = .ok w) : w = .undefined ∨ ∃ s, w = .str (substringTo s n) := by
  cases v <;> simp [jsSubstringToOpt, jsSubstringTo] at h
  all_goals first
  | exact Or.inl h.symm
  | exact Or.inr ⟨_, h.symm⟩

theorem jsSubstringToOpt_ok_of_strOk (n : Nat) (v : JsValue) (h : strOk v = true) :
    ∃ w, jsSubstringToOpt v n = .ok w := by
  cases v <;> simp [strOk] at h <;> exact ⟨_, rfl⟩

theorem orNullOptSub_ok_of_strOk (n : Nat) (v : JsValue) (h : strOk v = true) :
    ∃ w, orNullOptSub v n = .ok w := by
  obtain ⟨w, hw⟩ := jsSubstringToOpt_ok_of_strOk n v h
  refine ⟨jsOr w .null, ?_⟩
  simp [orNullOptSub, hw]

theorem orChainOptSub_ok_of_strOk (n : Nat) (a b : JsValue)
    (ha : strOk a = true) (hb : strOk b = true) :
    ∃ w, orChainOptSub a b n = .ok w := by
  obtain ⟨w1, hw1⟩ := jsSubstringToOpt_ok_of_strOk n a ha
  obtain ⟨w2, hw2⟩ := jsSubstringToOpt_ok_of_strOk n b hb
  by_cases ht : truthy w1 = true
  · exact ⟨w1, by simp [orChainOptSub, hw1, ht]⟩
  · exact ⟨jsOr w2 .null, by simp [orChainOptSub, hw1, hw2, ht]⟩

theorem jsOr_null_strMaxLen (w : JsValue) (n : Nat) (h : strMaxLen w n = true) :
    strMaxLen (jsOr w .null) n = true := by
  by_cases ht : truthy w = true
  · simpa [jsOr, ht] using h
  · simp [jsOr, ht, strMaxLen]

theorem strMaxLen_of_substringToOpt (v : JsValue) (n : Nat) (w : JsValue)
    (h : jsSubstringToOpt v n = .ok w) : strMaxLen w n = true := by
  rcases jsSubstringToOpt_ok v n w h with h1 | ⟨s, h1⟩ <;> subst h1
  · rfl
  · simpa [strMaxLen] using substringTo_length_le s n

theorem orNullOptSub_ok_max (v : JsValue) (n : Nat) (w : JsValue)
    (h : orNullOptSub v n = .ok w) : strMaxLen w n = true := by
  unfold orNullOptSub at h
  cases hv : jsSubstringToOpt v n with
  | error e => rw [hv] at h; exact absurd h (by simp)
  | ok w1 =>
    rw [hv] at h
    simp only [Except.ok.injEq] at h
    subst h
    exact jsOr_null_strMaxLen w1 n (strMaxLen_of_substringToOpt v n w1 hv)

theorem orChainOptSub_ok_max (a b : JsValue) (n : Nat) (w : JsValue)
    (h : orChainOptSub a b n = .ok w) : strMaxLen w n = true := by
  unfold orChainOptSub at h
  cases ha2 : jsSubstringToOpt a n with
  | error e => rw [ha2] at h; exact absurd h (by simp)
  | ok w1 =>
    rw [ha2] at h
    by_cases ht : truthy w1 = true
    · simp only [ht, if_true, Except.ok.injEq] at h
      subst h
      exact strMaxLen_of_substringToOpt a n w1 ha2
    · simp only [ht, if_false, Bool.false_eq_true] at h
      cases hb2 : jsSubstringToOpt b n with
      | error e => rw [hb2] at h; exact absurd h (by simp)
      | ok w2 =>
        rw [hb2] at h
        simp only [Except.ok.injEq] at h
        subst h
        exact jsOr_null_strMaxLen w2 n (strMaxLen_of_substringToOpt b n w2 hb2)

/-!
Claim theorems.
-/

/-- C1 (evidence of the divergence): against a server that answers
HTTP 429 on every attempt, `fetchWithRetry` with the default budget of
3 requests the 5s-times-attempt-number backoff after each attempt, but
then falls off the end of the loop and returns `undefined` — it
neither returns a response nor raises the last failure, contradicting
the specified `FetchExhaustedError` propagation. -/
theorem fetchWithRetry_all429_returnsUndefined :
    fetchWithRetry always429 3 = (.undefinedReturn, [5000, 10000, 15000]) := rfl

/-- C2 (counterexample): the transform is not total over untyped raw
records — a record whose `name` field is the number 42 makes
`transformSpirit` raise a TypeError (`(42).substring` is not a
function) instead of degrading to a default. -/
theorem transformSpirit_numericName_raises :
    transformSpirit [("name", JsValue.num 42)] =
      .error "record.field.substring is not a function" := rfl

/-- C2 (amended): the card and book transforms never raise on any raw
record; the spirits transform never raises provided every field it
feeds to `substring` is, when present, a string (absent and null
fields degrade to defaults) and the name fallback chain lands on a
string. -/
theorem transform_never_raises_on_stringlike :
    (∀ record : RawRecord, ∃ row, transformCard record = .ok row)
  ∧ (∀ record : RawRecord, ∃ row, transformBook record = .ok row)
  ∧ (∀ record : RawRecord,
      (∀ f ∈ spiritOptStringFields, strOk (getField (.obj record) f) = true) →
      (∃ s, spiritNameExpr record = JsValue.str s) →
      ∃ row, transformSpirit record = .ok row) := by
  refine ⟨fun record => ⟨_, rfl⟩, fun record => ⟨_, rfl⟩, fun record hf hn => ?_⟩
  obtain ⟨s, hs⟩ := hn
  simp only [spiritNameExpr] at hs
  have hb := hf "brand" (by simp [spiritOptStringFields])
  have hsu := hf "subcategory" (by simp [spiritOptStringFields])
  have hct := hf "class_type" (by simp [spiritOptStringFields])
  have hco := hf "country" (by simp [spiritOptStringFields])
  have hor := hf "origin" (by simp [spiritOptStringFields])
  have hre := hf "region" (by simp [spiritOptStringFields])
  have hde := hf "description" (by simp [spiritOptStringFields])
  have him := hf "image_url" (by simp [spiritOptStringFields])
  have hta := hf "tasting_notes" (by simp [spiritOptStringFields])
  obtain ⟨w1, e1⟩ := orNullOptSub_ok_of_strOk 255 _ hb
  obtain ⟨w2, e2⟩ := orChainOptSub_ok_of_strOk 100 _ _ hsu hct
  obtain ⟨w3, e3⟩ := orChainOptSub_ok_of_strOk 100 _ _ hco hor
  obtain ⟨w4, e4⟩ := orNullOptSub_ok_of_strOk 100 _ hre
  obtain ⟨w5, e5⟩ := orNullOptSub_ok_of_strOk 2000 _ hde
  obtain ⟨w6, e6⟩ := orNullOptSub_ok_of_strOk 500 _ him
  obtain ⟨w7, e7⟩ := orNullOptSub_ok_of_strOk 1000 _ hta
  cases htr : transformSpirit record with
  | ok row => exact ⟨row, rfl⟩
  | error e =>
    exfalso
    simp only [transformSpirit, hs, jsSubstringTo, e1, e2, e3, e4, e5, e6, e7] at htr
    exact Except.noConfusion htr

/-- Witness for C2: a well-formed raw spirit record transforms without
raising. -/
theorem transform_never_raises_witness :
    ∃ row, transformSpirit [("name", JsValue.str "Ardbeg Ten"), ("abv", JsValue.num 46)] = .ok row :=
  transform_never_raises_on_stringlike.2.2 _ (by decide) ⟨"Ardbeg Ten", rfl⟩

/-- Inversion of a successful spirits transform: the row is the field
list built from the individually computed fields. -/
theorem transformSpirit_ok_inv (record : RawRecord) (row : JsValue)
    (h : transformSpirit record = .ok row) :
    ∃ name brand subcategory country region description image_url tasting_notes,
      jsSubstringTo (spiritNameExpr record) 255 = .ok name ∧
      orNullOptSub (getField (.obj record) "brand") 255 = .ok brand ∧
      orChainOptSub (getField (.obj record) "subcategory") (getField (.obj record) "class_type") 100
        = .ok subcategory ∧
      orChainOptSub (getField (.obj record) "country") (getField (.obj record) "origin") 100
        = .ok country ∧
      orNullOptSub (getField (.obj record) "region") 100 = .ok region ∧
      orNullOptSub (getField (.obj record) "description") 2000 = .ok description ∧
      orNullOptSub (getField (.obj record) "image_url") 500 = .ok image_url ∧
      orNullOptSub (getField (.obj record) "tasting_notes") 1000 = .ok tasting_notes ∧
      row = .obj [
        ("name", name),
        ("brand", brand),
        ("category", .str (mapCategory (getField (.obj record) "category"))),
        ("subcategory", subcategory),
        ("country", country),
        ("region", region),
        ("abv", if isNumberType (getField (.obj record) "abv") then getField (.obj record) "abv"
          else jsOr (jsParseFloat (getField (.obj record) "alcohol_content")) .null),
        ("description", description),
        ("image_url", image_url),
        ("tasting_notes", tasting_notes),
        ("external_ids",
          if truthy (getField (.obj record) "external_ids")
            then jsonStringify (getField (.obj record) "external_ids")
          else if truthy (getField (.obj record) "ttb_id")
            then jsonStringify (.obj [("ttb_id", getField (.obj record) "ttb_id")])
          else .null)] := by
  simp only [transformSpirit] at h
  simp only [spiritNameExpr]
  cases e0 : jsSubstringTo (jsOr (getField (.obj record) "name")
      (jsOr (getField (.obj record) "brand_name") (.str "Unknown"))) 255 with
  | error e => rw [e0] at h; exact absurd h (by simp)
  | ok name =>
  rw [e0] at h
  cases e1 : orNullOptSub (getField (.obj record) "brand") 255 with
  | error e => rw [e1] at h; exact absurd h (by simp)
  | ok brand =>
  rw [e1] at h
  cases e2 : orChainOptSub (getField (.obj record) "subcategory")
      (getField (.obj record) "class_type") 100 with
  | error e => rw [e2] at h; exact absurd h (by simp)
  | ok subcategory =>
  rw [e2] at h
  cases e3 : orChainOptSub (getField (.obj record) "country")
      (getField (.obj record) "origin") 100 with
  | error e => rw [e3] at h; exact absurd h (by simp)
  | ok country =>
  rw [e3] at h
  cases e4 : orNullOptSub (getField (.obj record) "region") 100 with
  | error e => rw [e4] at h; exact absurd h (by simp)
  | ok region =>
  rw [e4] at h
  cases e5 : orNullOptSub (getField (.obj record) "description") 2000 with
  | error e => rw [e5] at h; exact absurd h (by simp)
  | ok description =>
  rw [e5] at h
  cases e6 : orNullOptSub (getField (.obj record) "image_url") 500 with
  | error e => rw [e6] at h; exact absurd h (by simp)
  | ok image_url =>
  rw [e6] at h
  cases e7 : orNullOptSub (getField (.obj record) "tasting_notes") 1000 with
  | error e => rw [e7] at h; exact absurd h (by simp)
  | ok tasting_notes =>
  rw [e7] at h
  simp only [Except.ok.injEq] at h
  exact ⟨name, brand, subcategory, country, region, description, image_url, tasting_notes,
    rfl, rfl, rfl, rfl, rfl, rfl, rfl, rfl, h.symm⟩

/-- C3 (counterexample): in the cards domain the transform of the raw
record lacking every optional field leaves the required `name` field
`undefined` — no deterministic default is substituted and no
truncation is applied, so the produced row does not satisfy the
required-field set. -/
theorem transformCard_empty_missing_required :
    transformCard [] = .ok emptyCardRow
    ∧ cardsRequiredFields.all (fun f => presentField emptyCardRow f) = false :=
  ⟨rfl, rfl⟩

/-- C3 (amended, spirits domain): a raw spirit record lacking every
field transforms to the fixed default row, and every successful
spirits transform yields a row whose `name` is a string and whose
string fields respect their declared maximum lengths. -/
theorem transformSpirit_defaults_and_truncation :
    (∀ record : RawRecord,
      (∀ f ∈ spiritInputFields, getField (.obj record) f = .undefined) →
      transformSpirit record = .ok defaultSpiritRow)
  ∧ (∀ record row, transformSpirit record = .ok row →
      (∃ s, getField row "name" = JsValue.str s) ∧
      ∀ p ∈ spiritFieldMax, strMaxLen (getField row p.1) p.2 = true) := by
  constructor
  · intro record h
    have h1 := h "name" (by simp [spiritInputFields])
    have h2 := h "brand_name" (by simp [spiritInputFields])
    have h3 := h "brand" (by simp [spiritInputFields])
    have h4 := h "category" (by simp [spiritInputFields])
    have h5 := h "subcategory" (by simp [spiritInputFields])
    have h6 := h "class_type" (by simp [spiritInputFields])
    have h7 := h "country" (by simp [spiritInputFields])
    have h8 := h "origin" (by simp [spiritInputFields])
    have h9 := h "region" (by simp [spiritInputFields])
    have h10 := h "abv" (by simp [spiritInputFields])
    have h11 := h "alcohol_content" (by simp [spiritInputFields])
    have h12 := h "description" (by simp [spiritInputFields])
    have h13 := h "image_url" (by simp [spiritInputFields])
    have h14 := h "tasting_notes" (by simp [spiritInputFields])
    have h15 := h "external_ids" (by simp [spiritInputFields])
    have h16 := h "ttb_id" (by simp [spiritInputFields])
    simp only [transformSpirit, h1, h2, h3, h4, h5, h6, h7, h8, h9, h10, h11, h12,
      h13, h14, h15, h16]
    rfl
  · intro record row h
    obtain ⟨name, brand, subcategory, country, region, description, image_url, tasting_notes,
      e0, e1, e2, e3, e4, e5, e6, e7, hrow⟩ := transformSpirit_ok_inv record row h
    subst hrow
    obtain ⟨s0, hv0, hw0⟩ := jsSubstringTo_ok _ _ _ e0
    constructor
    · exact ⟨substringTo s0 255, hw0⟩
    · intro p hp
      have gname : getField (JsValue.obj [("name", name), ("brand", brand),
          ("category", .str (mapCategory (getField (.obj record) "category"))),
          ("subcategory", subcategory), ("country", country), ("region", region),
          ("abv", if isNumberType (getField (.obj record) "abv") then getField (.obj record) "abv"
            else jsOr (jsParseFloat (getField (.obj record) "alcohol_content")) .null),
          ("description", description), ("image_url", image_url),
          ("tasting_notes", tasting_notes),
          ("external_ids",
            if truthy (getField (.obj record) "external_ids")
              then jsonStringify (getField (.obj record) "external_ids")
            else if truthy (getField (.obj record) "ttb_id")
              then jsonStringify (.obj [("ttb_id", getField (.obj record) "ttb_id")])
            else .null)]) "name" = name := rfl
      fin_cases hp
      · rw [gname, hw0]
        simpa [strMaxLen] using substringTo_length_le s0 255
      · exact orNullOptSub_ok_max _ _ _ e1
      · exact orChainOptSub_ok_max _ _ _ _ e2
      · exact orChainOptSub_ok_max _ _ _ _ e3
      · exact orNullOptSub_ok_max _ _ _ e4
      · exact orNullOptSub_ok_max _ _ _ e5
      · exact orNullOptSub_ok_max _ _ _ e6
      · exact orNullOptSub_ok_max _ _ _ e7

/-- Witness for C3: the empty raw record transforms to the default
row, which carries the string name and respects every length cap. -/
theorem transformSpirit_defaults_witness :
    transformSpirit [] = .ok defaultSpiritRow ∧
    (∃ s, getField defaultSpiritRow "name" = JsValue.str s) :=
  ⟨transformSpirit_defaults_and_truncation.1 [] (fun f _ => rfl),
   (transformSpirit_defaults_and_truncation.2 []
      defaultSpiritRow
      (transformSpirit_defaults_and_truncation.1 [] (fun f _ => rfl))).1⟩

/-- C7 (counterexample): the category strings "scotch", "rye" and
"whisk" match no rule of the ladder and fall through to `other`; they
are not mapped to `bourbon` as claimed. -/
theorem mapCategory_scotch_rye_whisk_other :
    mapCategory (JsValue.str "scotch") = "other"
    ∧ mapCategory (JsValue.str "rye") = "other"
    ∧ mapCategory (JsValue.str "whisk") = "other" :=
  ⟨by decide, by decide, by decide⟩

/-- C7 (amended): category normalization is the ordered
first-match-wins substring ladder `categoryLadderRules` with terminal
catch-all `other` (so the earlier-listed rule always decides): strings
containing `bourbon`, `whiskey` or `whisky` map to `bourbon`, and a
string containing no ladder keyword maps to `other`.  `mapOFFCategory`
evaluates its own ladder `offLadderRules` over the joined tag string
with catch-all `spirits`, and anything that is not an array maps to
`spirits`. -/
theorem mapCategory_firstMatch_ladder :
    (∀ c : String, c ≠ "" →
      mapCategory (.str c) = ladderFirstMatch (jsToLower c) "other" categoryLadderRules)
  ∧ (∀ c : String,
      (jsIncludes (jsToLower c) "bourbon" || jsIncludes (jsToLower c) "whiskey" ||
        jsIncludes (jsToLower c) "whisky") = true →
      mapCategory (.str c) = "bourbon")
  ∧ (∀ c : String, c ≠ "" →
      (∀ k ∈ ladderKeywords categoryLadderRules, jsIncludes (jsToLower c) k = false) →
      mapCategory (.str c) = "other")
  ∧ (∀ tags : List JsValue,
      mapOFFCategory (.arr tags)
        = ladderFirstMatch (jsToLower (jsJoinList tags ",")) "spirits" offLadderRules)
  ∧ (∀ v : JsValue, (∀ xs, v ≠ .arr xs) → mapOFFCategory v = "spirits") := by
  have htruthy : ∀ c : String, c ≠ "" → truthy (JsValue.str c) = true := by
    intro c hc
    simp [truthy, hc]
  refine ⟨?_, ?_, ?_, ?_, ?_⟩
  · intro c hc
    simp [mapCategory, htruthy c hc, jsToString, ladderFirstMatch, categoryLadderRules,
      List.any, Bool.or_assoc, Bool.or_false]
  · intro c h
    by_cases hc : c = ""
    · subst hc
      exact absurd h (by decide)
    · simp only [mapCategory, htruthy c hc, Bool.not_true, Bool.false_eq_true, if_false,
        jsToString]
      rw [if_pos]
      simpa using h
  · intro c hc hk
    have k1 := hk "bourbon" (by simp [ladderKeywords, categoryLadderRules])
    have k2 := hk "whiskey" (by simp [ladderKeywords, categoryLadderRules])
    have k3 := hk "whisky" (by simp [ladderKeywords, categoryLadderRules])
    have k4 := hk "vodka" (by simp [ladderKeywords, categoryLadderRules])
    have k5 := hk "rum" (by simp [ladderKeywords, categoryLadderRules])
    have k6 := hk "tequila" (by simp [ladderKeywords, categoryLadderRules])
    have k7 := hk "mezcal" (by simp [ladderKeywords, categoryLadderRules])
    have k8 := hk "gin" (by simp [ladderKeywords, categoryLadderRules])
    have k9 := hk "brandy" (by simp [ladderKeywords, categoryLadderRules])
    have k10 := hk "cognac" (by simp [ladderKeywords, categoryLadderRules])
    have k11 := hk "wine" (by simp [ladderKeywords, categoryLadderRules])
    have k12 := hk "beer" (by simp [ladderKeywords, categoryLadderRules])
    have k13 := hk "ale" (by simp [ladderKeywords, categoryLadderRules])
    have k14 := hk "lager" (by simp [ladderKeywords, categoryLadderRules])
    have k15 := hk "malt" (by simp [ladderKeywords, categoryLadderRules])
    have k16 := hk "cocktail" (by simp [ladderKeywords, categoryLadderRules])
    have k17 := hk "spirits" (by simp [ladderKeywords, categoryLadderRules])
    simp [mapCategory, htruthy c hc, jsToString, k1, k2, k3, k4, k5, k6, k7, k8, k9,
      k10, k11, k12, k13, k14, k15, k16, k17]
  · intro tags
    simp [mapOFFCategory, ladderFirstMatch, offLadderRules, List.any, Bool.or_assoc,
      Bool.or_false]
  · intro v hv
    cases v <;> simp [mapOFFCategory]
    exact absurd rfl (hv _)

/-- Witness for C7: a bourbon-keyword string maps to `bourbon`; a
string matching no ladder keyword maps to `other`. -/
theorem mapCategory_ladder_witness :
    mapCategory (JsValue.str "Straight Bourbon") = "bourbon"
    ∧ mapCategory (JsValue.str "Energy Drink") = "other" :=
  ⟨mapCategory_firstMatch_ladder.2.1 "Straight Bourbon" (by decide),
   mapCategory_firstMatch_ladder.2.2.1 "Energy Drink" (by decide) (by decide)⟩

theorem uploadBatchesGo_chunks {α : Type} (env : Nat → BatchOutcome) :
    ∀ (N : Nat) (records : List α) (bi : Nat), records.length ≤ N →
      uploadBatchesGo env bi records =
        ⟨sumOkBatches env bi (chunks50 records), sumFailedBatches env bi (chunks50 records)⟩ := by
  intro N
  induction N with
  | zero =>
    intro records bi h
    have hnil : records = [] := List.length_eq_zero.mp (Nat.le_zero.mp h)
    subst hnil
    simp [uploadBatchesGo, chunks50, sumOkBatches, sumFailedBatches]
  | succ N ih =>
    intro records bi h
    cases records with
    | nil => simp [uploadBatchesGo, chunks50, sumOkBatches, sumFailedBatches]
    | cons a l =>
      have hlen : ((a :: l).drop 50).length ≤ N := by
        simp only [List.length_drop, List.length_cons] at h ⊢
        omega
      rw [show uploadBatchesGo env bi (a :: l) =
          (let batch := (a :: l).take 50
           let rest := (a :: l).drop 50
           let restOutcome := uploadBatchesGo env (bi + 1) rest
           if batchFails (env bi) then
             ⟨restOutcome.uploaded, batch.length + restOutcome.errors⟩
           else ⟨batch.length + restOutcome.uploaded, restOutcome.errors⟩)
        from by rw [uploadBatchesGo]]
      rw [show chunks50 (a :: l) = (a :: l).take 50 :: chunks50 ((a :: l).drop 50)
        from by rw [chunks50]]
      simp only [ih ((a :: l).drop 50) (bi + 1) hlen]
      by_cases hb : batchFails (env bi) = true <;>
        simp [hb, sumOkBatches, sumFailedBatches, Nat.add_comm]

theorem sumOk_add_sumFailed {α : Type} (env : Nat → BatchOutcome) :
    ∀ (bs : List (List α)) (bi : Nat),
      sumOkBatches env bi bs + sumFailedBatches env bi bs = (bs.map List.length).sum := by
  intro bs
  induction bs with
  | nil => intro bi; simp [sumOkBatches, sumFailedBatches]
  | cons b rest ih =>
    intro bi
    have hrec := ih (bi + 1)
    by_cases hb : batchFails (env bi) = true <;>
      simp only [sumOkBatches, sumFailedBatches, hb, if_true, if_false, Bool.false_eq_true,
        List.map_cons, List.sum_cons] <;> omega

theorem chunks50_length_sum {α : Type} :
    ∀ (N : Nat) (records : List α), records.length ≤ N →
      ((chunks50 records).map List.length).sum = records.length := by
  intro N
  induction N with
  | zero =>
    intro records h
    have hnil : records = [] := List.length_eq_zero.mp (Nat.le_zero.mp h)
    subst hnil
    simp [chunks50]
  | succ N ih =>
    intro records h
    cases records with
    | nil => simp [chunks50]
    | cons a l =>
      have hlen : ((a :: l).drop 50).length ≤ N := by
        simp only [List.length_drop, List.length_cons] at h ⊢
        omega
      rw [show chunks50 (a :: l) = (a :: l).take 50 :: chunks50 ((a :: l).drop 50)
        from by rw [chunks50]]
      simp only [List.map_cons, List.sum_cons, ih ((a :: l).drop 50) hlen]
      simp only [List.length_take, List.length_drop, List.length_cons]
      omega

/-- C4: with the service credential configured the uploader walks
every consecutive batch of 50 — a failed batch POST (non-2xx or
transport error) credits exactly that batch's size to the error
counter, a successful one to the uploaded counter — and the run never
raises; without the credential it raises the missing-credential
error. -/
theorem uploadToSupabase_batch_isolation :
    (∀ (key : Option String) (records : List JsValue) (env : Nat → BatchOutcome),
      optTruthy key = true →
      uploadToSupabase key records env =
        .ok ⟨sumOkBatches env 0 (chunks50 records), sumFailedBatches env 0 (chunks50 records)⟩)
  ∧ (∀ (key : Option String) (records : List JsValue) (env : Nat → BatchOutcome),
      optTruthy key = false →
      uploadToSupabase key records env = .error "SUPABASE_SERVICE_KEY not configured") := by
  constructor
  · intro key records env hkey
    simp only [uploadToSupabase, hkey, Bool.not_true, Bool.false_eq_true, if_false,
      Except.ok.injEq]
    exact uploadBatchesGo_chunks env records.length records 0 le_rfl
  · intro key records env hkey
    simp [uploadToSupabase, hkey]

/-- Witness for C4: sixty records with a failing first batch upload
without raising, with the outcome given by the per-batch sums. -/
theorem uploadToSupabase_batch_isolation_witness :
    uploadToSupabase (some "svc") (List.replicate 60 JsValue.null) uploadEnvW =
      .ok ⟨sumOkBatches uploadEnvW 0 (chunks50 (List.replicate 60 JsValue.null)),
           sumFailedBatches uploadEnvW 0 (chunks50 (List.replicate 60 JsValue.null))⟩ :=
  uploadToSupabase_batch_isolation.1 (some "svc") (List.replicate 60 JsValue.null)
    uploadEnvW rfl

/-- C10: with the service credential configured the uploader returns
counters satisfying uploaded + errors = number of records — every
record lands in exactly one of the two counters. -/
theorem uploadToSupabase_conservation :
    ∀ (key : Option String) (records : List JsValue) (env : Nat → BatchOutcome),
      optTruthy key = true →
      ∃ o, uploadToSupabase key records env = .ok o ∧
        o.uploaded + o.errors = records.length := by
  intro key records env hkey
  refine ⟨⟨sumOkBatches env 0 (chunks50 records), sumFailedBatches env 0 (chunks50 records)⟩,
    ?_, ?_⟩
  · simp only [uploadToSupabase, hkey, Bool.not_true, Bool.false_eq_true, if_false,
      Except.ok.injEq]
    exact uploadBatchesGo_chunks env records.length records 0 le_rfl
  · show sumOkBatches env 0 (chunks50 records) + sumFailedBatches env 0 (chunks50 records)
      = records.length
    rw [sumOk_add_sumFailed env (chunks50 records) 0]
    exact chunks50_length_sum records.length records le_rfl

/-- Witness for C10: one record, one successful batch. -/
theorem uploadToSupabase_conservation_witness :
    ∃ o, uploadToSupabase (some "svc") [JsValue.null] (fun _ => BatchOutcome.ok) = .ok o ∧
      o.uploaded + o.errors = 1 :=
  uploadToSupabase_conservation (some "svc") [JsValue.null] (fun _ => BatchOutcome.ok) rfl

theorem handlerLoop_eq (cfg : Config) (scrapeFn : ScrapeEnv) (uploadEnv : UploadEnv)
    (domain : DomainDescriptor) (skipUpload : Option String) (optLimit : JsValue) :
    ∀ (sources : List (String × SourceDescriptor)) (acc : RunAccum),
      handlerLoop cfg scrapeFn uploadEnv domain skipUpload optLimit sources acc =
        ⟨acc.entries ++ runEntries cfg scrapeFn uploadEnv domain skipUpload optLimit sources,
         acc.totalScraped +
           ((sourceRuns cfg scrapeFn uploadEnv domain skipUpload optLimit sources).map
             SourceRun.scrapedContrib).sum,
         acc.totalUploaded +
           ((sourceRuns cfg scrapeFn uploadEnv domain skipUpload optLimit sources).map
             SourceRun.uploadedContrib).sum,
         acc.totalErrors +
           ((sourceRuns cfg scrapeFn uploadEnv domain skipUpload optLimit sources).map
             SourceRun.errorsContrib).sum,
         acc.scrapeCalls ++
           ((sourceRuns cfg scrapeFn uploadEnv domain skipUpload optLimit sources).map
             SourceRun.scrapeCalls).flatten,
         acc.uploadCalls ++
           ((sourceRuns cfg scrapeFn uploadEnv domain skipUpload optLimit sources).map
             SourceRun.uploadCalls).flatten⟩ := by
  intro sources
  induction sources with
  | nil => intro acc; simp [handlerLoop, runEntries, sourceRuns]
  | cons p rest ih =>
    intro acc
    cases p with
    | mk key desc =>
      simp only [handlerLoop]
      rw [ih]
      simp [runEntries, sourceRuns, List.append_assoc, Nat.add_assoc]

/-- Valid requests take the report branch: the response is the 200
report assembled from the per-source runs of the resolved sources,
with the scrape and upload call logs flattened from those runs. -/
theorem handler_report (cfg : Config) (scrapeFn : ScrapeEnv) (uploadEnv : UploadEnv)
    (now method : String) (q : Query) (t : String) (domain : DomainDescriptor)
    (hm : method ≠ "OPTIONS") (ht : q.type = some t) (hne : t ≠ "")
    (hlook : SCRAPERS.lookup t = some domain)
    (hres : resolveSources domain q.source ≠ []) :
    handler cfg scrapeFn uploadEnv now method q =
      ⟨.report t
        (runEntries cfg scrapeFn uploadEnv domain q.skip_upload (parseLimitParam q.limit)
          (resolveSources domain q.source))
        ((( sourceRuns cfg scrapeFn uploadEnv domain q.skip_upload (parseLimitParam q.limit)
          (resolveSources domain q.source)).map SourceRun.scrapedContrib).sum)
        ((( sourceRuns cfg scrapeFn uploadEnv domain q.skip_upload (parseLimitParam q.limit)
          (resolveSources domain q.source)).map SourceRun.uploadedContrib).sum)
        ((( sourceRuns cfg scrapeFn uploadEnv domain q.skip_upload (parseLimitParam q.limit)
          (resolveSources domain q.source)).map SourceRun.errorsContrib).sum)
        now,
       ((sourceRuns cfg scrapeFn uploadEnv domain q.skip_upload (parseLimitParam q.limit)
          (resolveSources domain q.source)).map SourceRun.scrapeCalls).flatten,
       ((sourceRuns cfg scrapeFn uploadEnv domain q.skip_upload (parseLimitParam q.limit)
          (resolveSources domain q.source)).map SourceRun.uploadCalls).flatten⟩ := by
  have hempty : (resolveSources domain q.source).isEmpty = false := by
    cases hx : resolveSources domain q.source with
    | nil => exact absurd hx hres
    | cons a l => rfl
  simp only [handler, if_neg hm, ht, Option.getD_some, if_neg hne, hlook, hempty,
    Bool.false_eq_true, if_false]
  rw [handlerLoop_eq]
  simp

theorem processSource_entry_err (cfg : Config) (scrapeFn : ScrapeEnv) (uploadEnv : UploadEnv)
    (domain : DomainDescriptor) (skipUpload : Option String) (optLimit : JsValue)
    (key : String) (desc : SourceDescriptor) (msg : String)
    (hskip : (desc.requiresAuth && !optTruthy cfg.untappdClientId) = false)
    (herr : scrapeFn key optLimit = .error msg) :
    processSource cfg scrapeFn uploadEnv domain skipUpload optLimit key desc =
      ⟨.err msg, 0, 0, 0, [⟨key, optLimit⟩], []⟩ := by
  simp [processSource, hskip, herr]

theorem processSource_entry_skipped (cfg : Config) (scrapeFn : ScrapeEnv)
    (uploadEnv : UploadEnv) (domain : DomainDescriptor) (skipUpload : Option String)
    (optLimit : JsValue) (key : String) (desc : SourceDescriptor)
    (hauth : desc.requiresAuth = true) (hcid : optTruthy cfg.untappdClientId = false) :
    processSource cfg scrapeFn uploadEnv domain skipUpload optLimit key desc =
      ⟨.skipped "Requires authentication", 0, 0, 0, [], []⟩ := by
  simp [processSource, hauth, hcid]

theorem processSource_dry_run (cfg : Config) (scrapeFn : ScrapeEnv) (uploadEnv : UploadEnv)
    (domain : DomainDescriptor) (optLimit : JsValue) (key : String)
    (desc : SourceDescriptor) (records : List RawRecord) (rows : List JsValue)
    (hskip : (desc.requiresAuth && !optTruthy cfg.untappdClientId) = false)
    (hscrape : scrapeFn key optLimit = .ok records)
    (htrans : mapTransform domain.transform records = .ok rows) :
    processSource cfg scrapeFn uploadEnv domain (some "true") optLimit key desc =
      ⟨.stats rows.length 0 0, rows.length, 0, 0, [⟨key, optLimit⟩], []⟩ := by
  simp [processSource, hskip, hscrape, htrans]

theorem processSource_dry_run_uploadCalls (cfg : Config) (scrapeFn : ScrapeEnv)
    (uploadEnv : UploadEnv) (domain : DomainDescriptor) (optLimit : JsValue)
    (key : String) (desc : SourceDescriptor) :
    (processSource cfg scrapeFn uploadEnv domain (some "true") optLimit key desc).uploadCalls
      = [] := by
  unfold processSource
  split
  · rfl
  · split
    · rfl
    · split
      · rfl
      · simp

theorem jsNumLt_nat_iff (a n : Nat) :
    jsNumLt a (JsValue.num (n : Rat)) = true ↔ a < n := by
  simp [jsNumLt, jsToNumber, Nat.cast_lt]

theorem jsNumGe_nat_iff (a n : Nat) :
    jsNumGe a (JsValue.num (n : Rat)) = true ↔ n ≤ a := by
  simp [jsNumGe, jsToNumber, Nat.cast_le]

theorem ratTruncToInt_natCast (n : Nat) : ratTruncToInt (n : Rat) = n := by
  have h0 : ¬((n : Rat) < 0) := not_lt.mpr (by exact_mod_cast Nat.zero_le n)
  rw [ratTruncToInt, if_neg h0, Rat.floor_def']
  simp

theorem jsSliceTo_natLimit {α : Type} (l : List α) (n : Nat) :
    (jsSliceTo l (JsValue.num (n : Rat))).length ≤ n := by
  simp only [jsSliceTo, jsToNumber, ratTruncToInt_natCast]
  have hng : ¬((n : Int) < 0) := by omega
  rw [if_neg hng]
  simp only [List.length_take]
  omega

theorem scrapeUntappd_nil (cfg : Config) (options : RawRecord) :
    scrapeUntappd cfg options = [] := by
  unfold scrapeUntappd
  split <;> rfl

theorem processSource_scrapeCalls (cfg : Config) (scrapeFn : ScrapeEnv)
    (uploadEnv : UploadEnv) (domain : DomainDescriptor) (skipUpload : Option String)
    (optLimit : JsValue) (key : String) (desc : SourceDescriptor) :
    (processSource cfg scrapeFn uploadEnv domain skipUpload optLimit key desc).scrapeCalls =
      if (desc.requiresAuth && !optTruthy cfg.untappdClientId) = true then []
      else [⟨key, optLimit⟩] := by
  unfold processSource
  repeat' split
  all_goals rfl

theorem ttbInner_spec (env : String → Option RawRecord) (baseId : JsValue) (n : Nat) :
    ∀ (seqs : List Nat) (total : Nat) (results : List RawRecord),
      total = results.length → total ≤ n →
      ((ttbInner env (JsValue.num (n : Rat)) baseId seqs total results).1
         = (ttbInner env (JsValue.num (n : Rat)) baseId seqs total results).2.length
       ∧ (ttbInner env (JsValue.num (n : Rat)) baseId seqs total results).1 ≤ n) := by
  intro seqs
  induction seqs with
  | nil =>
    intro total results h1 h2
    simp only [ttbInner]
    exact ⟨h1, h2⟩
  | cons seq rest ih =>
    intro total results h1 h2
    by_cases hlt : jsNumLt total (JsValue.num (n : Rat)) = true
    · have hlt2 : total < n := (jsNumLt_nat_iff total n).mp hlt
      simp only [ttbInner, if_pos hlt]
      cases henv : env (padStart (jsToString (jsAddNum baseId seq)) 10 '0') with
      | none => exact ih total results h1 h2
      | some record =>
        cases hbrand : truthy (getField (JsValue.obj record) "brand_name") with
        | true =>
          simp only [hbrand, if_true]
          exact ih (total + 1) (results ++ [record]) (by simp [h1]) (by omega)
        | false =>
          simp only [hbrand, Bool.false_eq_true, if_false]
          exact ih total results h1 h2
    · simp only [ttbInner, if_neg hlt]
      exact ⟨h1, h2⟩

theorem ttbOuter_spec (env : String → Option RawRecord) (n : Nat) :
    ∀ (years : List Int) (total : Nat) (results : List RawRecord),
      total = results.length → total ≤ n →
      ((ttbOuter env (JsValue.num (n : Rat)) years total results).1
         = (ttbOuter env (JsValue.num (n : Rat)) years total results).2.length
       ∧ (ttbOuter env (JsValue.num (n : Rat)) years total results).1 ≤ n) := by
  intro years
  induction years with
  | nil =>
    intro total results h1 h2
    simp only [ttbOuter]
    exact ⟨h1, h2⟩
  | cons year rest ih =>
    intro total results h1 h2
    by_cases hge : jsNumGe total (JsValue.num (n : Rat)) = true
    · rw [ttbOuter, if_pos hge]
      exact ⟨h1, h2⟩
    · rw [ttbOuter, if_neg hge]
      obtain ⟨hA, hB⟩ := ttbInner_spec env
        (jsParseInt (padStart (toString year) 2 '0' ++ "00000001")) n
        ((List.range 1000).map (fun k => k * 100)) total results h1 h2
      exact ih _ _ hA hB

theorem scrapeTTBCOLA_le (env : String → Option RawRecord) (y : Int) (options : RawRecord)
    (n : Nat) (h : jsLimitValue options 5000 = .num (n : Rat)) :
    (scrapeTTBCOLA env y options).length ≤ n := by
  unfold scrapeTTBCOLA
  rw [h]
  show (ttbOuter env (JsValue.num (n : Rat)) [y, y - 1, y - 2] 0 []).2.length ≤ n
  obtain ⟨hA, hB⟩ := ttbOuter_spec env n [y, y - 1, y - 2] 0 [] rfl (Nat.zero_le n)
  omega

theorem offPush_spec (n : Nat) :
    ∀ (ps : List JsValue) (total : Nat) (results : List RawRecord),
      total = results.length → total ≤ n →
      ((offPushProducts (JsValue.num (n : Rat)) ps total results).1
         = (offPushProducts (JsValue.num (n : Rat)) ps total results).2.length
       ∧ (offPushProducts (JsValue.num (n : Rat)) ps total results).1 ≤ n) := by
  intro ps
  induction ps with
  | nil =>
    intro total results h1 h2
    simp only [offPushProducts]
    exact ⟨h1, h2⟩
  | cons p rest ih =>
    intro total results h1 h2
    by_cases hge : jsNumGe total (JsValue.num (n : Rat)) = true
    · simp only [offPushProducts, if_pos hge]
      exact ⟨h1, h2⟩
    · have hlt : total < n := by
        have := (jsNumGe_nat_iff total n).not.mp (by simpa using hge)
        omega
      simp only [offPushProducts, if_neg hge]
      exact ih (total + 1) (results ++ [offRecord p]) (by simp [h1]) (by omega)

theorem offCategoryGo_spec (env : String → Nat → Except String JsValue) (cat : String)
    (n : Nat) :
    ∀ (fuel page total : Nat) (results : List RawRecord),
      total = results.length → total ≤ n →
      ∀ (t' : Nat) (r' : List RawRecord),
        offCategoryGo env (JsValue.num (n : Rat)) cat fuel page total results = some (t', r') →
        t' = r'.length ∧ t' ≤ n := by
  intro fuel
  induction fuel with
  | zero =>
    intro page total results h1 h2 t' r' h
    exact absurd h (by simp [offCategoryGo])
  | succ fuel ih =>
    intro page total results h1 h2 t' r' h
    simp only [offCategoryGo] at h
    by_cases hlt : jsNumLt total (JsValue.num (n : Rat)) = true
    · rw [if_pos hlt] at h
      cases henv : env cat page with
      | error e =>
        rw [henv] at h
        simp only [Option.some.injEq, Prod.mk.injEq] at h
        obtain ⟨ht, hr⟩ := h
        subst ht; subst hr
        exact ⟨h1, h2⟩
      | ok data =>
        rw [henv] at h
        by_cases htr : truthy (getField data "products") = true
        · simp only [htr, Bool.not_true, Bool.false_eq_true, if_false] at h
          by_cases hlz : jsLengthIsZero (getField data "products") = true
          · rw [if_pos hlz] at h
            simp only [Option.some.injEq, Prod.mk.injEq] at h
            obtain ⟨ht, hr⟩ := h
            subst ht; subst hr
            exact ⟨h1, h2⟩
          · rw [if_neg hlz] at h
            cases hit : jsIterate (getField data "products") with
            | none =>
              rw [hit] at h
              simp only [Option.some.injEq, Prod.mk.injEq] at h
              obtain ⟨ht, hr⟩ := h
              subst ht; subst hr
              exact ⟨h1, h2⟩
            | some ps =>
              rw [hit] at h
              have h' : offCategoryGo env (JsValue.num (n : Rat)) cat fuel (page + 1)
                  (offPushProducts (JsValue.num (n : Rat)) ps total results).1
                  (offPushProducts (JsValue.num (n : Rat)) ps total results).2
                  = some (t', r') := h
              obtain ⟨hA, hB⟩ := offPush_spec n ps total results h1 h2
              exact ih (page + 1) _ _ hA hB t' r' h'
        · have htr' : truthy (getField data "products") = false := by
            simpa using htr
          simp only [htr', Bool.not_false, if_true] at h
          simp only [Option.some.injEq, Prod.mk.injEq] at h
          obtain ⟨ht, hr⟩ := h
          subst ht; subst hr
          exact ⟨h1, h2⟩
    · rw [if_neg hlt] at h
      simp only [Option.some.injEq, Prod.mk.injEq] at h
      obtain ⟨ht, hr⟩ := h
      subst ht; subst hr
      exact ⟨h1, h2⟩

theorem offOuter_spec (env : String → Nat → Except String JsValue) (n : Nat) (fuel : Nat) :
    ∀ (cats : List String) (total : Nat) (results : List RawRecord),
      total = results.length → total ≤ n →
      ∀ (t' : Nat) (r' : List RawRecord),
        offOuter env (JsValue.num (n : Rat)) fuel cats total results = some (t', r') →
        t' = r'.length ∧ t' ≤ n := by
  intro cats
  induction cats with
  | nil =>
    intro total results h1 h2 t' r' h
    simp only [offOuter, Option.some.injEq, Prod.mk.injEq] at h
    obtain ⟨ht, hr⟩ := h
    subst ht; subst hr
    exact ⟨h1, h2⟩
  | cons cat rest ih =>
    intro total results h1 h2 t' r' h
    simp only [offOuter] at h
    by_cases hge : jsNumGe total (JsValue.num (n : Rat)) = true
    · rw [if_pos hge] at h
      simp only [Option.some.injEq, Prod.mk.injEq] at h
      obtain ⟨ht, hr⟩ := h
      subst ht; subst hr
      exact ⟨h1, h2⟩
    · rw [if_neg hge] at h
      cases hcg : offCategoryGo env (JsValue.num (n : Rat)) cat fuel 1 total results with
      | none => rw [hcg] at h; exact absurd h (by simp)
      | some p =>
        cases p with
        | mk t2 r2 =>
          rw [hcg] at h
          have h' : offOuter env (JsValue.num (n : Rat)) fuel rest t2 r2 = some (t', r') := h
          obtain ⟨hA, hB⟩ := offCategoryGo_spec env cat n fuel 1 total results h1 h2 t2 r2 hcg
          exact ih t2 r2 hA hB t' r' h'

theorem scrapeOpenFoodFacts_le (env : String → Nat → Except String JsValue)
    (options : RawRecord) (fuel : Nat) (n : Nat) (res : List RawRecord)
    (h : jsLimitValue options 20000 = .num (n : Rat))
    (hs : scrapeOpenFoodFacts env options fuel = some res) : res.length ≤ n := by
  unfold scrapeOpenFoodFacts at hs
  rw [h] at hs
  have hs' : (offOuter env (JsValue.num (n : Rat)) fuel offCategories 0 []).map
      (fun p => p.2) = some res := hs
  cases ho : offOuter env (JsValue.num (n : Rat)) fuel offCategories 0 [] with
  | none => rw [ho] at hs'; exact absurd hs' (by simp)
  | some p =>
    cases p with
    | mk t2 r2 =>
      rw [ho] at hs'
      simp only [Option.map_some', Option.some.injEq] at hs'
      obtain ⟨hA, hB⟩ := offOuter_spec env n fuel offCategories 0 [] rfl (Nat.zero_le n)
        t2 r2 ho
      rw [← hs']
      omega

theorem sliced_some_le {α : Type} (go : Option (List α)) (n : Nat) (res : List α)
    (h : go.map (fun results => jsSliceTo results (JsValue.num (n : Rat))) = some res) :
    res.length ≤ n := by
  cases go with
  | none => exact absurd h (by simp)
  | some results =>
    simp only [Option.map_some', Option.some.injEq] at h
    rw [← h]
    exact jsSliceTo_natLimit results n

theorem scrapeOpenBreweryDB_le (env : Nat → Except String JsValue) (options : RawRecord)
    (fuel n : Nat) (res : List RawRecord) (h : jsLimitValue options 9000 = .num (n : Rat))
    (hs : scrapeOpenBreweryDB env options fuel = some res) : res.length ≤ n := by
  unfold scrapeOpenBreweryDB at hs
  rw [h] at hs
  exact sliced_some_le (breweryGo env (JsValue.num (n : Rat)) fuel 1 []) n res hs

theorem scrapePunkAPI_le (env : Nat → Except String JsValue) (options : RawRecord)
    (fuel n : Nat) (res : List RawRecord) (h : jsLimitValue options 500 = .num (n : Rat))
    (hs : scrapePunkAPI env options fuel = some res) : res.length ≤ n := by
  unfold scrapePunkAPI at hs
  rw [h] at hs
  exact sliced_some_le (punkGo env (JsValue.num (n : Rat)) fuel 1 []) n res hs

theorem scrapePokemonTCG_le (env : Nat → Except String JsValue) (options : RawRecord)
    (fuel n : Nat) (res : List RawRecord) (h : jsLimitValue options 15000 = .num (n : Rat))
    (hs : scrapePokemonTCG env options fuel = some res) : res.length ≤ n := by
  unfold scrapePokemonTCG at hs
  rw [h] at hs
  exact sliced_some_le (pokemonGo env (JsValue.num (n : Rat)) fuel 1 []) n res hs

theorem scrapeScryfall_le (env : String → Except String JsValue) (options : RawRecord)
    (fuel n : Nat) (res : List RawRecord) (h : jsLimitValue options 80000 = .num (n : Rat))
    (hs : scrapeScryfall env options fuel = some res) : res.length ≤ n := by
  unfold scrapeScryfall at hs
  rw [h] at hs
  exact sliced_some_le
    (scryfallGo env (JsValue.num (n : Rat)) fuel
      (.str "https://api.scryfall.com/cards/search?q=*") []) n res hs

theorem scrapeOpenLibrary_le (env : String → Nat → Except String JsValue)
    (options : RawRecord) (fuel n : Nat) (res : List RawRecord)
    (h : jsLimitValue options 50000 = .num (n : Rat))
    (hs : scrapeOpenLibrary env options fuel = some res) : res.length ≤ n := by
  unfold scrapeOpenLibrary at hs
  rw [h] at hs
  exact sliced_some_le (olOuter env (JsValue.num (n : Rat)) fuel olSubjects []) n res hs

theorem scrapeGutenberg_le (env : String → Except String JsValue) (options : RawRecord)
    (fuel n : Nat) (res : List RawRecord) (h : jsLimitValue options 1000 = .num (n : Rat))
    (hs : scrapeGutenberg env options fuel = some res) : res.length ≤ n := by
  unfold scrapeGutenberg at hs
  rw [h] at hs
  exact sliced_some_le
    (gutenbergGo env (JsValue.num (n : Rat)) fuel (.str "https://gutendex.com/books/") [])
    n res hs

/-- C5: on a structurally valid request, when the scraper of one
resolved source throws, the report carries `{error: message}` for
exactly that source, every resolved source still gets the entry of its
own independent run, and the response status is 200. -/
theorem handler_source_failure_isolated :
    ∀ (cfg : Config) (scrapeFn : ScrapeEnv) (uploadEnv : UploadEnv) (now method : String)
      (q : Query) (t : String) (domain : DomainDescriptor) (A : String)
      (descA : SourceDescriptor) (msg : String),
      method ≠ "OPTIONS" → q.type = some t → t ≠ "" → SCRAPERS.lookup t = some domain →
      (A, descA) ∈ resolveSources domain q.source →
      (descA.requiresAuth && !optTruthy cfg.untappdClientId) = false →
      scrapeFn A (parseLimitParam q.limit) = .error msg →
      ((handler cfg scrapeFn uploadEnv now method q).response.statusCode = 200 ∧
       reportEntries (handler cfg scrapeFn uploadEnv now method q).response =
         runEntries cfg scrapeFn uploadEnv domain q.skip_upload (parseLimitParam q.limit)
           (resolveSources domain q.source) ∧
       (A, SourceEntry.err msg) ∈
         reportEntries (handler cfg scrapeFn uploadEnv now method q).response) := by
  intro cfg scrapeFn uploadEnv now method q t domain A descA msg hm ht hne hlook hmem hskip herr
  have hres : resolveSources domain q.source ≠ [] := by
    intro hx
    rw [hx] at hmem
    exact absurd hmem (List.not_mem_nil _)
  rw [handler_report cfg scrapeFn uploadEnv now method q t domain hm ht hne hlook hres]
  refine ⟨rfl, rfl, ?_⟩
  show (A, SourceEntry.err msg) ∈ runEntries cfg scrapeFn uploadEnv domain q.skip_upload
    (parseLimitParam q.limit) (resolveSources domain q.source)
  simp only [runEntries, List.mem_map]
  refine ⟨(A, descA), hmem, ?_⟩
  rw [processSource_entry_err cfg scrapeFn uploadEnv domain q.skip_upload
    (parseLimitParam q.limit) A descA msg hskip herr]

/-- Witness for C5: the punkapi scraper throws while the run covers
all spirits sources; the response is 200 and punkapi reports the
error. -/
theorem handler_source_failure_isolated_witness :
    (handler cfgNoAuth scrapeFnPunkErr uploadEnvOk "ts" "GET" queryAll).response.statusCode = 200
    ∧ ("punkapi", SourceEntry.err "boom") ∈
        reportEntries (handler cfgNoAuth scrapeFnPunkErr uploadEnvOk "ts" "GET" queryAll).response :=
  ⟨(handler_source_failure_isolated cfgNoAuth scrapeFnPunkErr uploadEnvOk "ts" "GET" queryAll
      "spirits" spiritsDomain "punkapi" punkDesc "boom" (by decide) rfl (by decide) rfl
      (by decide) rfl rfl).1,
   (handler_source_failure_isolated cfgNoAuth scrapeFnPunkErr uploadEnvOk "ts" "GET" queryAll
      "spirits" spiritsDomain "punkapi" punkDesc "boom" (by decide) rfl (by decide) rfl
      (by decide) rfl rfl).2.2⟩

/-- C8: on a structurally valid request with `skip_upload=true`,
scraping and transform still run but the batch uploader is never
invoked (the upload-call log is empty), the response is 200, and every
source whose scrape and transform succeed reports its scraped count
with uploaded and errors both 0. -/
theorem handler_skip_upload_dry_run :
    ∀ (cfg : Config) (scrapeFn : ScrapeEnv) (uploadEnv : UploadEnv) (now method : String)
      (q : Query) (t : String) (domain : DomainDescriptor),
      method ≠ "OPTIONS" → q.type = some t → t ≠ "" → SCRAPERS.lookup t = some domain →
      resolveSources domain q.source ≠ [] → q.skip_upload = some "true" →
      ((handler cfg scrapeFn uploadEnv now method q).uploadCalls = [] ∧
       (handler cfg scrapeFn uploadEnv now method q).response.statusCode = 200 ∧
       ∀ p ∈ resolveSources domain q.source, ∀ (records : List RawRecord) (rows : List JsValue),
         (p.2.requiresAuth && !optTruthy cfg.untappdClientId) = false →
         scrapeFn p.1 (parseLimitParam q.limit) = .ok records →
         mapTransform domain.transform records = .ok rows →
         (p.1, SourceEntry.stats rows.length 0 0) ∈
           reportEntries (handler cfg scrapeFn uploadEnv now method q).response) := by
  intro cfg scrapeFn uploadEnv now method q t domain hm ht hne hlook hres hsu
  rw [handler_report cfg scrapeFn uploadEnv now method q t domain hm ht hne hlook hres]
  refine ⟨?_, rfl, ?_⟩
  · show ((sourceRuns cfg scrapeFn uploadEnv domain q.skip_upload (parseLimitParam q.limit)
      (resolveSources domain q.source)).map SourceRun.uploadCalls).flatten = []
    rw [List.flatten_eq_nil_iff]
    intro ls hls
    rw [List.mem_map] at hls
    obtain ⟨run, hrun, hl⟩ := hls
    rw [sourceRuns, List.mem_map] at hrun
    obtain ⟨p, _, hp⟩ := hrun
    subst hp
    subst hl
    rw [hsu]
    exact processSource_dry_run_uploadCalls cfg scrapeFn uploadEnv domain
      (parseLimitParam q.limit) p.1 p.2
  · intro p hp records rows hskip hscrape htrans
    show (p.1, SourceEntry.stats rows.length 0 0) ∈ runEntries cfg scrapeFn uploadEnv domain
      q.skip_upload (parseLimitParam q.limit) (resolveSources domain q.source)
    simp only [runEntries, List.mem_map]
    refine ⟨p, hp, ?_⟩
    rw [hsu]
    rw [processSource_dry_run cfg scrapeFn uploadEnv domain (parseLimitParam q.limit)
      p.1 p.2 records rows hskip hscrape htrans]

/-- Witness for C8: a dry-run request for punkapi with a stub of three
raw beer records reports scraped 3, uploaded 0, errors 0, with no
upload invocation and status 200. -/
theorem handler_skip_upload_dry_run_witness :
    (handler cfgNoAuth scrapeFnPunkStub uploadEnvOk "ts" "GET" queryPunkSkip).uploadCalls = []
    ∧ (handler cfgNoAuth scrapeFnPunkStub uploadEnvOk "ts" "GET"
        queryPunkSkip).response.statusCode = 200
    ∧ ("punkapi", SourceEntry.stats 3 0 0) ∈
        reportEntries (handler cfgNoAuth scrapeFnPunkStub uploadEnvOk "ts" "GET"
          queryPunkSkip).response :=
  ⟨(handler_skip_upload_dry_run cfgNoAuth scrapeFnPunkStub uploadEnvOk "ts" "GET" queryPunkSkip
      "spirits" spiritsDomain (by decide) rfl (by decide) rfl (by decide) rfl).1,
   (handler_skip_upload_dry_run cfgNoAuth scrapeFnPunkStub uploadEnvOk "ts" "GET" queryPunkSkip
      "spirits" spiritsDomain (by decide) rfl (by decide) rfl (by decide) rfl).2.1,
   (handler_skip_upload_dry_run cfgNoAuth scrapeFnPunkStub uploadEnvOk "ts" "GET" queryPunkSkip
      "spirits" spiritsDomain (by decide) rfl (by decide) rfl (by decide) rfl).2.2
      ("punkapi", punkDesc) (by decide) punkStub punkRowsStub rfl rfl rfl⟩

/-- C9: a resolved source flagged `requiresAuth` is reported as
skipped (with the reason string), not as an error, when the Untappd
client id is not configured; the rest of the resolved sources still
run and the response is 200. -/
theorem handler_requiresAuth_skipped :
    ∀ (cfg : Config) (scrapeFn : ScrapeEnv) (uploadEnv : UploadEnv) (now method : String)
      (q : Query) (t : String) (domain : DomainDescriptor) (A : String)
      (descA : SourceDescriptor),
      method ≠ "OPTIONS" → q.type = some t → t ≠ "" → SCRAPERS.lookup t = some domain →
      (A, descA) ∈ resolveSources domain q.source →
      descA.requiresAuth = true →
      optTruthy cfg.untappdClientId = false →
      ((handler cfg scrapeFn uploadEnv now method q).response.statusCode = 200 ∧
       reportEntries (handler cfg scrapeFn uploadEnv now method q).response =
         runEntries cfg scrapeFn uploadEnv domain q.skip_upload (parseLimitParam q.limit)
           (resolveSources domain q.source) ∧
       (A, SourceEntry.skipped "Requires authentication") ∈
         reportEntries (handler cfg scrapeFn uploadEnv now method q).response) := by
  intro cfg scrapeFn uploadEnv now method q t domain A descA hm ht hne hlook hmem hauth hcid
  have hres : resolveSources domain q.source ≠ [] := by
    intro hx
    rw [hx] at hmem
    exact absurd hmem (List.not_mem_nil _)
  rw [handler_report cfg scrapeFn uploadEnv now method q t domain hm ht hne hlook hres]
  refine ⟨rfl, rfl, ?_⟩
  show (A, SourceEntry.skipped "Requires authentication") ∈ runEntries cfg scrapeFn uploadEnv
    domain q.skip_upload (parseLimitParam q.limit) (resolveSources domain q.source)
  simp only [runEntries, List.mem_map]
  refine ⟨(A, descA), hmem, ?_⟩
  rw [processSource_entry_skipped cfg scrapeFn uploadEnv domain q.skip_upload
    (parseLimitParam q.limit) A descA hauth hcid]

/-- Witness for C9: requesting untappd individually with no Untappd
credentials configured yields a 200 response with the
skipped-with-reason entry. -/
theorem handler_requiresAuth_skipped_witness :
    (handler cfgNoAuth scrapeFnPunkErr uploadEnvOk "ts" "GET" queryUntappd).response.statusCode
      = 200
    ∧ ("untappd", SourceEntry.skipped "Requires authentication") ∈
        reportEntries (handler cfgNoAuth scrapeFnPunkErr uploadEnvOk "ts" "GET"
          queryUntappd).response :=
  ⟨(handler_requiresAuth_skipped cfgNoAuth scrapeFnPunkErr uploadEnvOk "ts" "GET" queryUntappd
      "spirits" spiritsDomain "untappd" untappdDesc (by decide) rfl (by decide) rfl
      (by decide) rfl rfl).1,
   (handler_requiresAuth_skipped cfgNoAuth scrapeFnPunkErr uploadEnvOk "ts" "GET" queryUntappd
      "spirits" spiritsDomain "untappd" untappdDesc (by decide) rfl (by decide) rfl
      (by decide) rfl rfl).2.2⟩

/-- C6 (counterexample): the CocktailDB scraper does not respect the
caller-supplied limit — against a network answering two drinks for
letter `a`, a call with `limit = 1` returns 2 records. -/
theorem scrapeCocktailDB_exceeds_limit :
    (scrapeCocktailDB cocktailEnvCx [("limit", JsValue.num 1)]).length = 2
    ∧ ¬((scrapeCocktailDB cocktailEnvCx [("limit", JsValue.num 1)]).length ≤ 1) := by
  constructor
  · decide
  · decide

/-- C6 (amended): every registered source scraper except TheCocktailDB
returns at most the effective limit many raw records (the
options-supplied limit, or the per-source default): TTB COLA and Open
Food Facts bound their accumulation inline, the paginated and
cursor-driven scrapers slice the accumulation to the limit, and
Untappd returns no records at all.  TheCocktailDB ignores its options
argument entirely.  The orchestrator propagates the parsed global
`limit` to every source scraper it invokes: every recorded scrape call
of a valid run carries `parseLimitParam q.limit`, and every resolved
non-skipped source is invoked once with it. -/
theorem scrapers_respect_limit_except_cocktaildb :
    (∀ (env : String → Option RawRecord) (y : Int) (options : RawRecord) (n : Nat),
      jsLimitValue options 5000 = JsValue.num (n : Rat) →
      (scrapeTTBCOLA env y options).length ≤ n)
  ∧ (∀ (env : String → Nat → Except String JsValue) (options : RawRecord) (fuel n : Nat)
      (res : List RawRecord), jsLimitValue options 20000 = JsValue.num (n : Rat) →
      scrapeOpenFoodFacts env options fuel = some res → res.length ≤ n)
  ∧ (∀ (env : Nat → Except String JsValue) (options : RawRecord) (fuel n : Nat)
      (res : List RawRecord), jsLimitValue options 9000 = JsValue.num (n : Rat) →
      scrapeOpenBreweryDB env options fuel = some res → res.length ≤ n)
  ∧ (∀ (env : Nat → Except String JsValue) (options : RawRecord) (fuel n : Nat)
      (res : List RawRecord), jsLimitValue options 500 = JsValue.num (n : Rat) →
      scrapePunkAPI env options fuel = some res → res.length ≤ n)
  ∧ (∀ (env : Nat → Except String JsValue) (options : RawRecord) (fuel n : Nat)
      (res : List RawRecord), jsLimitValue options 15000 = JsValue.num (n : Rat) →
      scrapePokemonTCG env options fuel = some res → res.length ≤ n)
  ∧ (∀ (env : String → Except String JsValue) (options : RawRecord) (fuel n : Nat)
      (res : List RawRecord), jsLimitValue options 80000 = JsValue.num (n : Rat) →
      scrapeScryfall env options fuel = some res → res.length ≤ n)
  ∧ (∀ (env : String → Nat → Except String JsValue) (options : RawRecord) (fuel n : Nat)
      (res : List RawRecord), jsLimitValue options 50000 = JsValue.num (n : Rat) →
      scrapeOpenLibrary env options fuel = some res → res.length ≤ n)
  ∧ (∀ (env : String → Except String JsValue) (options : RawRecord) (fuel n : Nat)
      (res : List RawRecord), jsLimitValue options 1000 = JsValue.num (n : Rat) →
      scrapeGutenberg env options fuel = some res → res.length ≤ n)
  ∧ (∀ (cfg : Config) (options : RawRecord), scrapeUntappd cfg options = [])
  ∧ (∀ (env : Char → Except String JsValue) (options options' : RawRecord),
      scrapeCocktailDB env options = scrapeCocktailDB env options')
  ∧ (∀ (cfg : Config) (scrapeFn : ScrapeEnv) (uploadEnv : UploadEnv) (now method : String)
      (q : Query) (t : String) (domain : DomainDescriptor),
      method ≠ "OPTIONS" → q.type = some t → t ≠ "" → SCRAPERS.lookup t = some domain →
      resolveSources domain q.source ≠ [] →
      ((∀ call ∈ (handler cfg scrapeFn uploadEnv now method q).scrapeCalls,
          call.limit = parseLimitParam q.limit)
       ∧ ∀ p ∈ resolveSources domain q.source,
           (p.2.requiresAuth && !optTruthy cfg.untappdClientId) = false →
           (⟨p.1, parseLimitParam q.limit⟩ : ScrapeCall) ∈
             (handler cfg scrapeFn uploadEnv now method q).scrapeCalls)) := by
  refine ⟨scrapeTTBCOLA_le, scrapeOpenFoodFacts_le, scrapeOpenBreweryDB_le, scrapePunkAPI_le,
    scrapePokemonTCG_le, scrapeScryfall_le, scrapeOpenLibrary_le, scrapeGutenberg_le,
    scrapeUntappd_nil, fun env options options' => rfl, ?_⟩
  intro cfg scrapeFn uploadEnv now method q t domain hm ht hne hlook hres
  rw [handler_report cfg scrapeFn uploadEnv now method q t domain hm ht hne hlook hres]
  constructor
  · intro call hcall
    simp only [List.mem_flatten, List.mem_map, sourceRuns] at hcall
    obtain ⟨ls, ⟨run, ⟨p, hp, hrun⟩, hls⟩, hcallin⟩ := hcall
    subst hrun
    subst hls
    rw [processSource_scrapeCalls] at hcallin
    by_cases hc : (p.2.requiresAuth && !optTruthy cfg.untappdClientId) = true
    · rw [if_pos hc] at hcallin
      exact absurd hcallin (List.not_mem_nil call)
    · rw [if_neg hc] at hcallin
      rw [List.mem_singleton] at hcallin
      rw [hcallin]
  · intro p hp hskip
    simp only [List.mem_flatten, List.mem_map, sourceRuns]
    refine ⟨[⟨p.1, parseLimitParam q.limit⟩], ⟨?_, ?_⟩, List.mem_singleton_self _⟩
    · exact processSource cfg scrapeFn uploadEnv domain q.skip_upload
        (parseLimitParam q.limit) p.1 p.2
    · refine ⟨⟨p, hp, rfl⟩, ?_⟩
      rw [processSource_scrapeCalls, if_neg]
      rw [hskip]
      exact Bool.false_ne_true

/-- Witness for C6: the TTB scraper with limit 2 stays within 2
records, a PunkAPI run against an empty catalog stays within its
limit, and the orchestrator hands the parsed limit of an all-sources
run to punkapi. -/
theorem scrapers_respect_limit_witness :
    (scrapeTTBCOLA ttbEnvW 26 [("limit", JsValue.num 2)]).length ≤ 2
    ∧ ([] : List RawRecord).length ≤ 1
    ∧ (⟨"punkapi", parseLimitParam queryAll.limit⟩ : ScrapeCall) ∈
        (handler cfgNoAuth scrapeFnPunkErr uploadEnvOk "ts" "GET" queryAll).scrapeCalls :=
  ⟨scrapers_respect_limit_except_cocktaildb.1 ttbEnvW 26 [("limit", JsValue.num 2)] 2 rfl,
   (scrapers_respect_limit_except_cocktaildb.2.2.2.1 punkEnvW [("limit", JsValue.num 1)] 3 1
     [] rfl rfl),
   ((scrapers_respect_limit_except_cocktaildb.2.2.2.2.2.2.2.2.2.2 cfgNoAuth scrapeFnPunkErr
      uploadEnvOk "ts" "GET" queryAll "spirits" spiritsDomain (by decide) rfl (by decide) rfl
      (by decide)).2 ("punkapi", punkDesc) (by decide) rfl)⟩
